import Mathlib

/-!
# Range finding and Boltzmann inversion (`src/range_finding.cpp`)

A shallow embedding of the range-finding pipeline of the MSCG force-matching
code: range tracking during the trajectory scan, the range writer, the
histogram builder and the Boltzmann inverter.

Conventions of the embedding.

* A finite `double` is the rational it denotes (`ℚ`); comparisons of finite
  doubles are comparisons of these rationals, and arithmetic on them is taken
  without rounding error, except where a quotient is truncated to an `int`:
  the expression `(upper - lower) / binwidth` of the histogram builder and of
  both readers is formed as IEEE 754 binary64 forms it.  Each operand is the
  double nearest to the rational given for it, and the difference, the
  quotient and the sum with `0.5` are each rounded to nearest, ties to even
  (`to_double`).
* The density and the potential of a bin, which the inverter obtains by a
  division by the pair count and a logarithm, range over `Double`: a finite
  value, one of the two infinities, or NaN.  The sign of a zero is not tracked
  (the zero divisors that can occur are `+0`), and a finite result is never
  rounded to an infinity.
* C arrays indexed by the defined-interaction index are total maps `Nat → _`,
  written with `Function.update`.
* A file handle that is only written is the list of values written so far.
* The constants `VERYLARGE` and `VERYSMALL_F` come from `misc.h`, which is not
  part of the sources at hand; every definition that uses one takes it as an
  explicit argument.
* The geometry routines `calc_distance`, `calc_angle`, `calc_dihedral` are
  external; an evaluator receives the value they return as `param`.
* The C library function `log` is an argument of the inverter, which supplies
  its values at the positive finite arguments (`Double.log`).
* `int` arithmetic is 32-bit: a sum or product of `int`s that leaves the range
  wraps around (`int_wrap`), as on a two-complement machine.  The conversion
  `(int)x` of a `double` is truncation toward zero (`double_to_int`), taken
  within the range of `int`.
* A call of `exit`, and an exception nobody catches, end the process: the
  routine returns `Except.error`.  The write `bin_centers[0] = ...` into a
  zero-length array is undefined in the source; the histogram builder returns
  `Except.error` there as well.
* Diagnostics printed to standard output are not part of the state.
-/

namespace RangeFinding

/-! ## Data model -/

/-- Modelled from the spec: the enumeration `InteractionClassType` is declared in
`interaction_model.h`, which is not among the sources.  The five kinds are the ones the
spec's data model lists; each of them is named in `range_finding.cpp`. -/
inductive InteractionClassType
  | kPairNonbonded
  | kPairBonded
  | kAngularBonded
  | kDihedralBonded
  | kThreeBodyNonbonded
  deriving DecidableEq, Repr

open InteractionClassType

/-- The fields of `InteractionClassSpec` that `range_finding.cpp` reads or writes.
`output_range_file_handles i` is the content written so far to the `.dist` file of
defined interaction `i`. -/
structure InteractionClassSpec where
  class_type : InteractionClassType
  class_subtype : Int
  cutoff : ℚ
  fm_binwidth : ℚ
  output_parameter_distribution : Int
  n_defined : Int
  lower_cutoffs : Nat → ℚ
  upper_cutoffs : Nat → ℚ
  defined_to_matched_intrxn_index_map : Nat → Nat
  n_to_force_match : Int
  output_range_file_handles : Nat → List ℚ

/-- The four functions `calculate_fm_matrix_elements` can point to. -/
inductive Evaluator
  | calc_isotropic_two_body_sampling_range
  | calc_angular_three_body_sampling_range
  | calc_dihedral_four_body_interaction_sampling_range
  | calc_nothing
  deriving DecidableEq, Repr

/-- The fields of `InteractionClassComputer` used by range finding.  `ispec` is the class
the computer points to; writes through `icomp->ispec` are writes to this field. -/
structure InteractionClassComputer where
  ispec : InteractionClassSpec
  index_among_defined_intrxns : Nat
  calculate_fm_matrix_elements : Evaluator

/-! ## Range tracker -/

/-- The loop of `initialize_ranges`: for `i = 0 .. tol-1` set `lower_cutoffs[i] = VERYLARGE`,
`upper_cutoffs[i] = -VERYLARGE`, `num[i] = i + 1`.  Returns the three arrays. -/
def initialize_ranges (VERYLARGE : ℚ) (tol : Int) (lower_cutoffs upper_cutoffs : Nat → ℚ)
    (num : Nat → Nat) : (Nat → ℚ) × (Nat → ℚ) × (Nat → Nat) :=
  (List.range tol.toNat).foldl
    (fun st i =>
      (Function.update st.1 i VERYLARGE,
       Function.update st.2.1 i (-VERYLARGE),
       Function.update st.2.2 i (i + 1)))
    (lower_cutoffs, upper_cutoffs, num)

/-- The statement `fprintf(output_range_file_handles[i], "%lf\n", param)`. -/
def fprintf_param (ispec : InteractionClassSpec) (i : Nat) (param : ℚ) : InteractionClassSpec :=
  { ispec with
    output_range_file_handles :=
      Function.update ispec.output_range_file_handles i
        (ispec.output_range_file_handles i ++ [param]) }

/-- The evaluator `calc_isotropic_two_body_sampling_range`; `param` is the distance returned
by `calc_distance`. -/
def calc_isotropic_two_body_sampling_range (icomp : InteractionClassComputer) (param : ℚ) :
    InteractionClassComputer :=
  let i := icomp.index_among_defined_intrxns
  let s0 := icomp.ispec
  let s1 := if s0.lower_cutoffs i > param then
      { s0 with lower_cutoffs := Function.update s0.lower_cutoffs i param } else s0
  let s2 := if s1.upper_cutoffs i < param then
      { s1 with upper_cutoffs := Function.update s1.upper_cutoffs i param } else s1
  let s3 :=
    if s2.output_parameter_distribution = 1 ∨ s2.output_parameter_distribution = 2 then
      if s2.class_type = kPairBonded ∨ s2.class_type = kAngularBonded
          ∨ s2.class_type = kDihedralBonded then
        fprintf_param s2 i param
      else if s2.class_type = kPairNonbonded ∧ param < s2.cutoff then
        fprintf_param s2 i param
      else s2
    else s2
  { icomp with ispec := s3 }

/-- The evaluator `calc_angular_three_body_sampling_range`; `param` is the angle returned by
`calc_angle`. -/
def calc_angular_three_body_sampling_range (icomp : InteractionClassComputer) (param : ℚ) :
    InteractionClassComputer :=
  let i := icomp.index_among_defined_intrxns
  let s0 := icomp.ispec
  let s1 := if s0.lower_cutoffs i > param then
      { s0 with lower_cutoffs := Function.update s0.lower_cutoffs i param } else s0
  let s2 := if s1.upper_cutoffs i < param then
      { s1 with upper_cutoffs := Function.update s1.upper_cutoffs i param } else s1
  let s3 :=
    if s2.output_parameter_distribution = 1 ∨ s2.output_parameter_distribution = 2 then
      fprintf_param s2 i param
    else s2
  { icomp with ispec := s3 }

/-- The evaluator `calc_dihedral_four_body_interaction_sampling_range`; `param` is the
dihedral returned by `calc_dihedral`. -/
def calc_dihedral_four_body_interaction_sampling_range (icomp : InteractionClassComputer)
    (param : ℚ) : InteractionClassComputer :=
  let i := icomp.index_among_defined_intrxns
  let s0 := icomp.ispec
  let s1 := if s0.lower_cutoffs i > param then
      { s0 with lower_cutoffs := Function.update s0.lower_cutoffs i param } else s0
  let s2 := if s1.upper_cutoffs i < param then
      { s1 with upper_cutoffs := Function.update s1.upper_cutoffs i param } else s1
  let s3 :=
    if s2.output_parameter_distribution = 1 ∨ s2.output_parameter_distribution = 2 then
      fprintf_param s2 i param
    else s2
  { icomp with ispec := s3 }

/-- The evaluator `calc_nothing`: an empty body. -/
def calc_nothing (icomp : InteractionClassComputer) (_param : ℚ) : InteractionClassComputer :=
  icomp

/-- The function a value of `calculate_fm_matrix_elements` points to: a call through the
pointer runs this function. -/
def Evaluator.fn : Evaluator → InteractionClassComputer → ℚ → InteractionClassComputer
  | .calc_isotropic_two_body_sampling_range => RangeFinding.calc_isotropic_two_body_sampling_range
  | .calc_angular_three_body_sampling_range => RangeFinding.calc_angular_three_body_sampling_range
  | .calc_dihedral_four_body_interaction_sampling_range =>
      RangeFinding.calc_dihedral_four_body_interaction_sampling_range
  | .calc_nothing => RangeFinding.calc_nothing

/-! ## Sampling dispatcher -/

/-- The routine `report_unrecognized_class_subtype`: prints the diagnostic and calls
`exit(EXIT_FAILURE)`.  The process ends; the diagnostic is the error value.  `full_name` is
what `iclass->get_full_name()` returns. -/
def report_unrecognized_class_subtype {α : Type} (full_name : String) : Except String α :=
  Except.error ("Unrecognized " ++ full_name ++ " class subtype!\n")

/-- The statement `open_parameter_distribution_files_for_class`: a fresh array of
`get_n_defined()` handles, each on a newly created (empty) `.dist` file. -/
def open_parameter_distribution_files_for_class (icomp : InteractionClassComputer) :
    InteractionClassComputer :=
  { icomp with
    ispec := { icomp.ispec with
      output_range_file_handles := fun i =>
        if (i : Int) < icomp.ispec.n_defined then [] else icomp.ispec.output_range_file_handles i } }

/-- The routine `initialize_single_class_range_finding_temps`.  The external call
`setup_for_defined_interactions` has already run on `iclass`; `full_name` is the name of the
class used in the diagnostic.  The result is the computer, whose `ispec` is the class.  The
writes to `n_cg_types` and `interaction_column_indices`, fields no routine here reads, are
left out. -/
def initialize_single_class_range_finding_temps (VERYLARGE : ℚ) (full_name : String)
    (iclass : InteractionClassSpec) (icomp : InteractionClassComputer) :
    Except String InteractionClassComputer := do
  let icomp0 : InteractionClassComputer := { icomp with ispec := iclass }
  let icomp1 ←
    if iclass.class_type = kPairNonbonded then
      pure { icomp0 with
        calculate_fm_matrix_elements := Evaluator.calc_isotropic_two_body_sampling_range }
    else if iclass.class_type = kPairBonded then
      pure { icomp0 with
        calculate_fm_matrix_elements := Evaluator.calc_isotropic_two_body_sampling_range }
    else if iclass.class_type = kAngularBonded then
      if iclass.class_subtype = 0 then
        pure { icomp0 with
          calculate_fm_matrix_elements := Evaluator.calc_angular_three_body_sampling_range }
      else if iclass.class_subtype = 1 then
        pure { icomp0 with
          calculate_fm_matrix_elements := Evaluator.calc_isotropic_two_body_sampling_range }
      else
        report_unrecognized_class_subtype full_name
    else if iclass.class_type = kDihedralBonded then
      if iclass.class_subtype = 0 then
        pure { icomp0 with
          calculate_fm_matrix_elements :=
            Evaluator.calc_dihedral_four_body_interaction_sampling_range }
      else if iclass.class_subtype = 1 then
        pure { icomp0 with
          calculate_fm_matrix_elements := Evaluator.calc_isotropic_two_body_sampling_range }
      else
        report_unrecognized_class_subtype full_name
    else
      pure { icomp0 with calculate_fm_matrix_elements := Evaluator.calc_nothing }
  let r := initialize_ranges VERYLARGE icomp1.ispec.n_defined icomp1.ispec.lower_cutoffs
    icomp1.ispec.upper_cutoffs icomp1.ispec.defined_to_matched_intrxn_index_map
  let icomp2 : InteractionClassComputer :=
    { icomp1 with
      ispec := { icomp1.ispec with
        lower_cutoffs := r.1, upper_cutoffs := r.2.1,
        defined_to_matched_intrxn_index_map := r.2.2,
        n_to_force_match := icomp1.ispec.n_defined } }
  if icomp2.ispec.output_parameter_distribution = 1
      ∨ icomp2.ispec.output_parameter_distribution = 2 then
    if icomp2.ispec.class_type = kPairNonbonded ∨ icomp2.ispec.class_type = kPairBonded
        ∨ icomp2.ispec.class_type = kAngularBonded
        ∨ icomp2.ispec.class_type = kDihedralBonded then
      pure (open_parameter_distribution_files_for_class icomp2)
    else
      pure icomp2
  else
    pure icomp2

/-- The evaluator the spec's dispatch table (section 4.1) assigns to a class kind and
subtype; `none` is the fatal case. -/
def spec_evaluator (class_type : InteractionClassType) (class_subtype : Int) :
    Option Evaluator :=
  match class_type with
  | kPairNonbonded => some Evaluator.calc_isotropic_two_body_sampling_range
  | kPairBonded => some Evaluator.calc_isotropic_two_body_sampling_range
  | kAngularBonded =>
      if class_subtype = 0 then some Evaluator.calc_angular_three_body_sampling_range
      else if class_subtype = 1 then some Evaluator.calc_isotropic_two_body_sampling_range
      else none
  | kDihedralBonded =>
      if class_subtype = 0 then
        some Evaluator.calc_dihedral_four_body_interaction_sampling_range
      else if class_subtype = 1 then some Evaluator.calc_isotropic_two_body_sampling_range
      else none
  | kThreeBodyNonbonded => some Evaluator.calc_nothing

/-- The acceptance policy of the spec's Distribution Recorder (section 4.2): recording is
on (mode 1 or 2) and the class is a bonded one, or PairNonbonded with the value strictly
below the cutoff. -/
def spec_accepts (ispec : InteractionClassSpec) (param : ℚ) : Prop :=
  (ispec.output_parameter_distribution = 1 ∨ ispec.output_parameter_distribution = 2) ∧
  (ispec.class_type = kPairBonded ∨ ispec.class_type = kAngularBonded
    ∨ ispec.class_type = kDihedralBonded
    ∨ (ispec.class_type = kPairNonbonded ∧ param < ispec.cutoff))

/-- The evaluator the initialisation leaves in the computer, or `none` when it exits. -/
def selected_evaluator (VERYLARGE : ℚ) (full_name : String) (iclass : InteractionClassSpec)
    (icomp : InteractionClassComputer) : Option Evaluator :=
  match initialize_single_class_range_finding_temps VERYLARGE full_name iclass icomp with
  | Except.ok c => some c.calculate_fm_matrix_elements
  | Except.error _ => none

/-! ## Range writer -/

/-- One line of a range file: the four `fprintf` calls of `write_single_range_specification`
write the name, `lower upper`, the tag (`" none"` or `" fm"`) and a newline. -/
structure RangeLine where
  basename : String
  lower : ℚ
  upper : ℚ
  tag : String
  deriving DecidableEq

/-- The routine `write_single_range_specification`.  `name i` is what
`get_interaction_name(name, i, " ")` returns; `solution_spline_output_file` is the lines
written so far.  Returns the computer (whose class bounds may have been overwritten) and the
file with the new line. -/
def write_single_range_specification (VERYLARGE VERYSMALL_F : ℚ)
    (icomp : InteractionClassComputer) (name : Nat → String)
    (solution_spline_output_file : List RangeLine) (index_among_defined : Nat) :
    InteractionClassComputer × List RangeLine :=
  let ispec := icomp.ispec
  let basename := name index_among_defined
  let ispec1 : InteractionClassSpec :=
    if |ispec.upper_cutoffs index_among_defined + VERYLARGE| < VERYSMALL_F then
      { ispec with
        upper_cutoffs := Function.update ispec.upper_cutoffs index_among_defined (-1)
        lower_cutoffs := Function.update ispec.lower_cutoffs index_among_defined (-1) }
    else if ispec.class_type = kPairNonbonded then
      if ispec.lower_cutoffs index_among_defined > ispec.cutoff then
        { ispec with
          upper_cutoffs := Function.update ispec.upper_cutoffs index_among_defined (-1)
          lower_cutoffs := Function.update ispec.lower_cutoffs index_among_defined (-1) }
      else if ispec.upper_cutoffs index_among_defined > ispec.cutoff then
        { ispec with
          upper_cutoffs := Function.update ispec.upper_cutoffs index_among_defined ispec.cutoff }
      else ispec
    else ispec
  let tag := if ispec1.upper_cutoffs index_among_defined = -1 then " none" else " fm"
  ({ icomp with ispec := ispec1 },
   solution_spline_output_file ++
     [{ basename := basename
        lower := ispec1.lower_cutoffs index_among_defined
        upper := ispec1.upper_cutoffs index_among_defined
        tag := tag }])

/-! ## Histogram builder -/

/-- The value of a 32-bit `int` expression whose mathematical value is `x`, on a
two-complement machine. -/
def int_wrap (x : Int) : Int :=
  (x + 2147483648) % 4294967296 - 2147483648

/-- The C++ conversion `(int)x` of a `double`: truncation toward zero, for a value within
the range of `int`. -/
def double_to_int (x : ℚ) : Int :=
  if 0 ≤ x then ⌊x⌋ else ⌈x⌉

/-- The integer nearest to `q`, the even one of the two when `q` lies halfway. -/
def round_nearest_even (q : ℚ) : Int :=
  if q - ⌊q⌋ < 1 / 2 then ⌊q⌋
  else if 1 / 2 < q - ⌊q⌋ then ⌊q⌋ + 1
  else if ⌊q⌋ % 2 = 0 then ⌊q⌋ else ⌊q⌋ + 1

/-- The exponent of the last place of the binary64 numbers around `q`: a significand has
53 bits, and below `2^-1022` the spacing stays at `2^-1074`. -/
def ulp_exponent (q : ℚ) : Int :=
  max (Int.log 2 |q| - 52) (-1074)

/-- The `double` an operation returns whose exact result is `q`, and the `double` that
stands for a rational `q` given as input: IEEE 754 binary64 rounding to nearest, ties to
even.  Results beyond the largest finite `double` are not modelled. -/
def to_double (q : ℚ) : ℚ :=
  (round_nearest_even (q / 2 ^ ulp_exponent q) : ℚ) * 2 ^ ulp_exponent q

/-- The expression `(upper_cutoffs[i] - lower_cutoffs[i]) / get_fm_binwidth()` of the
histogram builder and of both readers: a difference and a quotient of `double`s. -/
def range_over_binwidth (ispec : InteractionClassSpec) (i : Nat) : ℚ :=
  to_double
    (to_double (to_double (ispec.upper_cutoffs i) - to_double (ispec.lower_cutoffs i))
      / to_double ispec.fm_binwidth)

/-- The bin count `generate_parameter_distribution_histogram` computes for defined
interaction `i`, with the class as the computation leaves it:
`2 * (int)((upper - lower) / binwidth + 0.5)`, the product taken in `int`.  The method
`adjust_cutoffs_for_basis` belongs to `interaction_model.h` and is an argument. -/
def generate_parameter_distribution_histogram_num_bins
    (adjust_cutoffs_for_basis : InteractionClassSpec → Nat → InteractionClassSpec)
    (ispec : InteractionClassSpec) (i : Nat) : InteractionClassSpec × Int :=
  if ispec.upper_cutoffs i = -1 then
    (ispec, 1)
  else
    let ispec1 := adjust_cutoffs_for_basis ispec i
    (ispec1,
     int_wrap (2 * double_to_int (to_double (range_over_binwidth ispec1 i + 1 / 2))))

/-- The bin count as the spec words it: `round(2·(upper−lower)/binwidth)`. -/
def spec_num_bins (lower upper binwidth : ℚ) : Int :=
  round (2 * (upper - lower) / binwidth)

/-! ## Boltzmann inverter -/

/-- A value of the locals `normalized_counts` and `potential` of the readers: a `double`
that is finite, an infinity, or NaN. -/
inductive Double
  | finite (value : ℚ)
  | pos_inf
  | neg_inf
  | nan
  deriving DecidableEq

/-- The quotient `a / b` of two finite doubles: a nonzero value over zero is an infinity,
zero over zero is NaN. -/
def double_div (a b : ℚ) : Double :=
  if b ≠ 0 then Double.finite (a / b)
  else if 0 < a then Double.pos_inf
  else if a < 0 then Double.neg_inf
  else Double.nan

/-- The product of two doubles: NaN when a factor is NaN or when zero meets an infinity. -/
def Double.mul : Double → Double → Double
  | Double.finite a, Double.finite b => Double.finite (a * b)
  | Double.finite a, Double.pos_inf =>
      if 0 < a then Double.pos_inf else if a < 0 then Double.neg_inf else Double.nan
  | Double.finite a, Double.neg_inf =>
      if 0 < a then Double.neg_inf else if a < 0 then Double.pos_inf else Double.nan
  | Double.finite _, Double.nan => Double.nan
  | Double.pos_inf, Double.finite b =>
      if 0 < b then Double.pos_inf else if b < 0 then Double.neg_inf else Double.nan
  | Double.pos_inf, Double.pos_inf => Double.pos_inf
  | Double.pos_inf, Double.neg_inf => Double.neg_inf
  | Double.pos_inf, Double.nan => Double.nan
  | Double.neg_inf, Double.finite b =>
      if 0 < b then Double.neg_inf else if b < 0 then Double.pos_inf else Double.nan
  | Double.neg_inf, Double.pos_inf => Double.neg_inf
  | Double.neg_inf, Double.neg_inf => Double.pos_inf
  | Double.neg_inf, Double.nan => Double.nan
  | Double.nan, _ => Double.nan

/-- The C library function `log` on a `double`, `log` being its values at the positive
finite arguments: `log(0)` is `-inf`, `log(+inf)` is `+inf`, and the logarithm of a negative
number or of NaN is NaN. -/
def Double.log (log : ℚ → ℚ) : Double → Double
  | Double.finite a =>
      if 0 < a then Double.finite (log a) else if a = 0 then Double.neg_inf else Double.nan
  | Double.pos_inf => Double.pos_inf
  | Double.neg_inf => Double.nan
  | Double.nan => Double.nan

/-- The comparison `x > b` with a finite `b`; a comparison with NaN is false. -/
def Double.gt : Double → ℚ → Bool
  | Double.finite a, b => decide (a > b)
  | Double.pos_inf, _ => true
  | Double.neg_inf, _ => false
  | Double.nan, _ => false

/-- The comparison `x < b` with a finite `b`; a comparison with NaN is false. -/
def Double.lt : Double → ℚ → Bool
  | Double.finite a, b => decide (a < b)
  | Double.pos_inf, _ => false
  | Double.neg_inf, _ => true
  | Double.nan, _ => false

/-- The fields of `MATRIX_DATA` the inverter reads, and a log of what it hands to the
accumulator: one entry `(counter, r, potential)` per pair of calls
`accumulate_matching_forces` / `accumulate_target_force_element`. -/
structure MATRIX_DATA where
  normalization : ℚ
  temperature : ℚ
  boltzmann : ℚ
  accumulated : List (Int × ℚ × Double)

/-- The two accumulator calls of one loop iteration: basis values at `r` and the target
value `potential` go to regression row `counter`. -/
def MATRIX_DATA.accumulate (mat : MATRIX_DATA) (counter : Int) (r : ℚ) (potential : Double) :
    MATRIX_DATA :=
  { mat with accumulated := mat.accumulated ++ [(counter, r, potential)] }

/-- The local state of the read loop of `read_one_param_dist_file_pair` and
`read_one_param_dist_file_other`: the unread entries of the `.hist` file, the locals `r` and
`counts`, the rows written to the `.rdf` file, the matrix and the row counter. -/
structure ReadLoop where
  file : List (ℚ × Int)
  r : ℚ
  counts : Int
  rdf_rows : List (ℚ × Double)
  mat : MATRIX_DATA
  counter : Int

/-- The call `fscanf(file, "%lf %d\n", &r, &counts)`: at end of file the locals keep their
values. -/
def ReadLoop.fscanf (st : ReadLoop) : ReadLoop :=
  match st.file with
  | [] => st
  | (r, counts) :: rest => { st with file := rest, r := r, counts := counts }

/-- The local constant `PI` of `read_one_param_dist_file_pair`. -/
def PI : ℚ := 31415926 / 10000000

/-- The values `(normalized_counts, potential)` one iteration of the pair loop computes
from `r` and `counts`, the potential after the clamp.  The function `log` is the one of the
C library. -/
def pair_bin_values (log : ℚ → ℚ) (VERYLARGE : ℚ) (binwidth : ℚ) (mat : MATRIX_DATA)
    (num_of_pairs volume : ℚ) (r : ℚ) (counts : Int) : Double × Double :=
  let v : Double × Double :=
    if counts > 0 then
      let dr := r - (1 / 2) * binwidth
      let normalized_counts :=
        double_div ((counts : ℚ) * 3) (4 * PI * (r * r * r - dr * dr * dr))
      let normalized_counts :=
        normalized_counts.mul (double_div (mat.normalization * volume) num_of_pairs)
      (normalized_counts,
       (Double.finite (-mat.temperature * mat.boltzmann)).mul
         (Double.log log normalized_counts))
    else
      (Double.finite 0, Double.finite 100)
  let potential :=
    if v.2.gt VERYLARGE || v.2.lt (-VERYLARGE) then Double.finite VERYLARGE else v.2
  (v.1, potential)

/-- The values `(normalized_counts, potential)` one iteration of the non-pair loop computes
from `counts`, the potential after the clamp. -/
def other_bin_values (log : ℚ → ℚ) (VERYLARGE : ℚ) (mat : MATRIX_DATA) (num_of_pairs : ℚ)
    (counts : Int) : Double × Double :=
  let v : Double × Double :=
    if counts > 0 then
      let normalized_counts := double_div ((counts : ℚ) * 2 * mat.normalization) num_of_pairs
      (normalized_counts,
       (Double.finite (-mat.temperature * mat.boltzmann)).mul
         (Double.log log normalized_counts))
    else
      (Double.finite 0, Double.finite 100)
  let potential :=
    if v.2.gt VERYLARGE || v.2.lt (-VERYLARGE) then Double.finite VERYLARGE else v.2
  (v.1, potential)

/-- One iteration of the loop of `read_one_param_dist_file_pair`. -/
def pair_loop_body (log : ℚ → ℚ) (VERYLARGE : ℚ) (binwidth : ℚ) (num_of_pairs volume : ℚ)
    (st : ReadLoop) : ReadLoop :=
  let st1 := st.fscanf
  let v := pair_bin_values log VERYLARGE binwidth st1.mat num_of_pairs volume st1.r st1.counts
  { st1 with
    rdf_rows := st1.rdf_rows ++ [(st1.r, v.1)]
    mat := st1.mat.accumulate st1.counter st1.r v.2
    counter := st1.counter + 1 }

/-- One iteration of the loop of `read_one_param_dist_file_other`; it writes nothing to the
`.rdf` file. -/
def other_loop_body (log : ℚ → ℚ) (VERYLARGE : ℚ) (num_of_pairs : ℚ) (st : ReadLoop) :
    ReadLoop :=
  let st1 := st.fscanf
  let v := other_bin_values log VERYLARGE st1.mat num_of_pairs st1.counts
  { st1 with
    mat := st1.mat.accumulate st1.counter st1.r v.2
    counter := st1.counter + 1 }

/-- What a reader leaves behind: the matrix, the row counter, and the `.rdf` file (its
header line and its rows). -/
structure ReadResult where
  mat : MATRIX_DATA
  counter : Int
  rdf_header : String
  rdf_rows : List (ℚ × Double)

/-- The local `num_entries` of `read_one_param_dist_file_pair`:
`2 * (int)((upper - lower) / binwidth + 0.5)`, the product taken in `int`. -/
def pair_num_entries (ispec : InteractionClassSpec) (i : Nat) : Int :=
  int_wrap (2 * double_to_int (to_double (range_over_binwidth ispec i + 1 / 2)))

/-- The local `num_entries` of `read_one_param_dist_file_other`:
`2 * (int)((upper - lower) / binwidth)`, without the `+ 0.5` of the pair reader. -/
def other_num_entries (ispec : InteractionClassSpec) (i : Nat) : Int :=
  int_wrap (2 * double_to_int (range_over_binwidth ispec i))

/-- The routine `read_one_param_dist_file_pair`.  `hist_file` holds the entries of the
`.hist` file after its header line; `r0`, `counts0` are the indeterminate initial values of
the locals `r`, `counts`.  The array `derivatives` has `num_entries - 1` elements: a
negative length makes `new[]` throw, which ends the process. -/
def read_one_param_dist_file_pair (log : ℚ → ℚ) (VERYLARGE : ℚ)
    (icomp : InteractionClassComputer) (hist_file : List (ℚ × Int)) (mat : MATRIX_DATA)
    (index_among_defined_intrxns : Nat) (counter : Int) (num_of_pairs volume : ℚ)
    (r0 : ℚ) (counts0 : Int) : Except String ReadResult :=
  let rdf_header := "# r gofr\n"
  if icomp.ispec.upper_cutoffs index_among_defined_intrxns = -1 then
    Except.ok { mat := mat, counter := counter, rdf_header := rdf_header, rdf_rows := [] }
  else
    let num_entries : Int := pair_num_entries icomp.ispec index_among_defined_intrxns
    if num_entries - 1 < 0 then
      Except.error "std::bad_array_new_length"
    else
      let st := Nat.iterate
        (pair_loop_body log VERYLARGE icomp.ispec.fm_binwidth num_of_pairs volume)
        num_entries.toNat
        { file := hist_file, r := r0, counts := counts0, rdf_rows := [], mat := mat,
          counter := counter }
      Except.ok { mat := st.mat, counter := st.counter, rdf_header := rdf_header,
                  rdf_rows := st.rdf_rows }

/-- The routine `read_one_param_dist_file_other`; arguments as for the pair reader. -/
def read_one_param_dist_file_other (log : ℚ → ℚ) (VERYLARGE : ℚ)
    (icomp : InteractionClassComputer) (hist_file : List (ℚ × Int)) (mat : MATRIX_DATA)
    (index_among_defined_intrxns : Nat) (counter : Int) (num_of_pairs : ℚ)
    (r0 : ℚ) (counts0 : Int) : Except String ReadResult :=
  let rdf_header := "# r gofr\n"
  if icomp.ispec.upper_cutoffs index_among_defined_intrxns = -1 then
    Except.ok { mat := mat, counter := counter, rdf_header := rdf_header, rdf_rows := [] }
  else
    let num_entries : Int := other_num_entries icomp.ispec index_among_defined_intrxns
    if num_entries - 1 < 0 then
      Except.error "std::bad_array_new_length"
    else
      let st := Nat.iterate (other_loop_body log VERYLARGE num_of_pairs) num_entries.toNat
        { file := hist_file, r := r0, counts := counts0, rdf_rows := [], mat := mat,
          counter := counter }
      Except.ok { mat := st.mat, counter := st.counter, rdf_header := rdf_header,
                  rdf_rows := st.rdf_rows }

/-- The first loop of `read_interaction_file_and_build_matrix`: the array `sitecounter`
(`n_cg_types` zero-initialised `int`s) after `sitecounter[type-1]++` for every site.  A type
outside `1 .. n_cg_types` indexes outside the array, which the source leaves undefined; the
model skips such a site. -/
def sitecounter (n_cg_types : Nat) (cg_site_types : List Int) : List Int :=
  cg_site_types.foldl
    (fun sc type =>
      if 1 ≤ type then
        sc.set (type - 1).toNat (int_wrap (sc.getD (type - 1).toNat 0 + 1))
      else sc)
    (List.replicate n_cg_types 0)

/-- The local `num_pairs` of `read_interaction_file_and_build_matrix` for a PairNonbonded
interaction between the types `type_vector[0]` and `type_vector[1]`: the product is formed
in `int` and only then converted to `double`. -/
def num_pairs (sc : List Int) (type0 type1 : Int) : ℚ :=
  let num_pairs : ℚ :=
    ((int_wrap (sc.getD (type0 - 1).toNat 0 * sc.getD (type1 - 1).toNat 0) : Int) : ℚ)
  if type0 = type1 then
    (num_pairs - (sc.getD (type0 - 1).toNat 0 : ℚ)) / 2
  else
    num_pairs

/-- The arguments `(num_of_pairs, volume)` with which the loop of
`read_interaction_file_and_build_matrix` calls a reader for an interaction between
`type0` and `type1`; the non-pair reader takes no volume. -/
def reader_arguments (class_type : InteractionClassType) (n_cg_types : Nat)
    (cg_site_types : List Int) (type0 type1 : Int) (volume : ℚ) : ℚ × Option ℚ :=
  if class_type = kPairNonbonded then
    (num_pairs (sitecounter n_cg_types cg_site_types) type0 type1, some volume)
  else if class_type = kPairBonded then
    (1, some 1)
  else
    (1, none)

/-- The routine `read_interaction_file_and_build_matrix`: one reader call per defined
interaction (the size of `defined_to_matched_intrxn_index_map` is `n_defined`), the matrix
and the counter threaded through.  `get_interaction_types i` is the type vector of
interaction `i`, `hist_files i` its `.hist` entries; the result lists the rows of the `.rdf`
files written. -/
def read_interaction_file_and_build_matrix (log : ℚ → ℚ) (VERYLARGE : ℚ) (mat : MATRIX_DATA)
    (icomp : InteractionClassComputer) (volume : ℚ) (n_cg_types : Nat)
    (cg_site_types : List Int) (get_interaction_types : Nat → Int × Int) (hist_files : Nat → List (ℚ × Int))
    (r0 : ℚ) (counts0 : Int) : Except String (MATRIX_DATA × List (List (ℚ × Double))) :=
  Except.map (fun (acc : MATRIX_DATA × Int × List (List (ℚ × Double))) => (acc.1, acc.2.2))
  ((List.range icomp.ispec.n_defined.toNat).foldlM
    (fun (acc : MATRIX_DATA × Int × List (List (ℚ × Double))) i => do
      let icomp1 := { icomp with index_among_defined_intrxns := i }
      let types := get_interaction_types i
      let args := reader_arguments icomp.ispec.class_type n_cg_types cg_site_types types.1 types.2
        volume
      let res ←
        match args.2 with
        | some vol =>
            read_one_param_dist_file_pair log VERYLARGE icomp1 (hist_files i) acc.1 i acc.2.1
              args.1 vol r0 counts0
        | none =>
            read_one_param_dist_file_other log VERYLARGE icomp1 (hist_files i) acc.1 i acc.2.1
              args.1 r0 counts0
      pure (res.mat, res.counter, acc.2.2 ++ [res.rdf_rows]))
    (mat, 0, []))

/-- The regression rows a read loop hands over for a list of `.hist` entries, given the
potential it computes for an entry: row numbers count up from `counter`. -/
def regression_rows (potential : ℚ → Int → Double) :
    Int → List (ℚ × Int) → List (Int × ℚ × Double)
  | _, [] => []
  | counter, (r, counts) :: rest =>
      (counter, r, potential r counts) :: regression_rows potential (counter + 1) rest

/-- A bonded class with bounds `0` and `64` and bin width `2^-24`. -/
def fine_bin_class : InteractionClassSpec :=
  { class_type := kPairBonded, class_subtype := 0, cutoff := 0, fm_binwidth := 1 / 16777216,
    output_parameter_distribution := 1, n_defined := 1,
    lower_cutoffs := fun _ => 0, upper_cutoffs := fun _ => 64,
    defined_to_matched_intrxn_index_map := fun _ => 1, n_to_force_match := 1,
    output_range_file_handles := fun _ => [] }

/-- The computer of a class right after `initialize_ranges` ran on its arrays (as
`initialize_single_class_range_finding_temps` does), positioned on defined interaction `i`. -/
def initialized_computer (VERYLARGE : ℚ) (iclass : InteractionClassSpec) (tol : Int) (i : Nat)
    (ev : Evaluator) : InteractionClassComputer :=
  let r := initialize_ranges VERYLARGE tol iclass.lower_cutoffs iclass.upper_cutoffs
    iclass.defined_to_matched_intrxn_index_map
  { ispec := { iclass with
      lower_cutoffs := r.1, upper_cutoffs := r.2.1,
      defined_to_matched_intrxn_index_map := r.2.2 }
    index_among_defined_intrxns := i
    calculate_fm_matrix_elements := ev }

/-- One call of an evaluator tightens the bounds of the current interaction by `min`/`max`
and leaves the current index alone. -/
def TightensBounds (ev : InteractionClassComputer → ℚ → InteractionClassComputer) : Prop :=
  ∀ (c : InteractionClassComputer) (p : ℚ),
    (ev c p).index_among_defined_intrxns = c.index_among_defined_intrxns ∧
    (ev c p).ispec.lower_cutoffs c.index_among_defined_intrxns
      = min (c.ispec.lower_cutoffs c.index_among_defined_intrxns) p ∧
    (ev c p).ispec.upper_cutoffs c.index_among_defined_intrxns
      = max (c.ispec.upper_cutoffs c.index_among_defined_intrxns) p

/-- A pair-nonbonded class with one defined interaction, cutoff 1.2 and bin width 0.05, used
to instantiate theorems at a concrete input. -/
def example_class : InteractionClassSpec :=
  { class_type := kPairNonbonded, class_subtype := 0, cutoff := 12 / 10, fm_binwidth := 1 / 20,
    output_parameter_distribution := 1, n_defined := 1,
    lower_cutoffs := fun _ => 0, upper_cutoffs := fun _ => 0,
    defined_to_matched_intrxn_index_map := fun _ => 0, n_to_force_match := 0,
    output_range_file_handles := fun _ => [] }

/-- A computer whose interaction 0 has the bounds `1/10` and `1/5`, with bin width `1/20`:
both readers take four entries. -/
def four_bin_computer : InteractionClassComputer :=
  { ispec := { example_class with lower_cutoffs := fun _ => 1 / 10,
                                  upper_cutoffs := fun _ => 1 / 5 }
    index_among_defined_intrxns := 0
    calculate_fm_matrix_elements := Evaluator.calc_isotropic_two_body_sampling_range }

/-- A matrix with unit normalisation, temperature 300 and Boltzmann constant `1/500`, and
nothing accumulated. -/
def example_matrix : MATRIX_DATA :=
  { normalization := 1, temperature := 300, boltzmann := 1 / 500, accumulated := [] }

/-- Four `.hist` entries, the second and the fourth with count zero. -/
def example_hist : List (ℚ × Int) :=
  [(9 / 80, 2), (11 / 80, 0), (13 / 80, 5), (15 / 80, 0)]

/-- Four `.hist` entries that all hold the count 7. -/
def uniform_hist : List (ℚ × Int) :=
  [(9 / 80, 7), (11 / 80, 7), (13 / 80, 7), (15 / 80, 7)]

/-- A dihedral class (angle based), with recording off. -/
def dihedral_class : InteractionClassSpec :=
  { class_type := kDihedralBonded, class_subtype := 0, cutoff := 0, fm_binwidth := 1,
    output_parameter_distribution := 0, n_defined := 1,
    lower_cutoffs := fun _ => 0, upper_cutoffs := fun _ => 0,
    defined_to_matched_intrxn_index_map := fun _ => 0, n_to_force_match := 0,
    output_range_file_handles := fun _ => [] }

/-- The computer of `dihedral_class` after initialisation and the single sample `-1`. -/
def dihedral_computer : InteractionClassComputer :=
  ([-1] : List ℚ).foldl calc_dihedral_four_body_interaction_sampling_range
    (initialized_computer 1000 dihedral_class 1 0
      Evaluator.calc_dihedral_four_body_interaction_sampling_range)

/-- The computer of `example_class` after initialisation and the samples `1/10`, `3/2`, `1`. -/
def example_computer : InteractionClassComputer :=
  ([1 / 10, 3 / 2, 1] : List ℚ).foldl calc_isotropic_two_body_sampling_range
    (initialized_computer 1000 { example_class with output_parameter_distribution := 0 } 1 0
      Evaluator.calc_isotropic_two_body_sampling_range)

/-! ## Histogram builder: bins and population -/

/-- The array `bin_centers` of `generate_parameter_distribution_histogram` once filled:
`bin_centers[0] = lower + 0.25 * binwidth`, each later entry the previous one plus
`0.5 * binwidth`. -/
def bin_centers (lower binwidth : ℚ) (num_bins : Nat) : List ℚ :=
  List.iterate (fun c => c + (1 / 2) * binwidth) (lower + (1 / 4) * binwidth) num_bins

/-- The local `curr_bin` of the population loop for a value read from the `.dist` file:
`(int)(floor((value - lower + VERYSMALL_F) / (0.5 * binwidth)))`. -/
def curr_bin (VERYSMALL_F lower binwidth value : ℚ) : Int :=
  double_to_int ((⌊(value - lower + VERYSMALL_F) / ((1 / 2) * binwidth)⌋ : Int) : ℚ)

/-- One pass of the body of the population loop: `bin_counts[curr_bin]++` when
`curr_bin < num_bins && curr_bin >= 0`; otherwise the array is left alone (a warning is
printed when `curr_bin > num_bins`). -/
def populate_step (VERYSMALL_F lower binwidth : ℚ) (num_bins : Int) (bin_counts : List Nat)
    (value : ℚ) : List Nat :=
  if curr_bin VERYSMALL_F lower binwidth value < num_bins
      ∧ curr_bin VERYSMALL_F lower binwidth value ≥ 0 then
    bin_counts.set (curr_bin VERYSMALL_F lower binwidth value).toNat
      (bin_counts.getD (curr_bin VERYSMALL_F lower binwidth value).toNat 0 + 1)
  else
    bin_counts

/-- The population loop: every value of the `.dist` file, in file order, starting from the
zero-initialised array `bin_counts`. -/
def populate_histogram (VERYSMALL_F lower binwidth : ℚ) (num_bins : Int)
    (dist_file : List ℚ) : List Nat :=
  dist_file.foldl (populate_step VERYSMALL_F lower binwidth num_bins)
    (List.replicate num_bins.toNat 0)

/-- A `.hist` file: the header line and one `center<TAB>count` line per bin. -/
structure HistFile where
  header : String
  rows : List (ℚ × Nat)

/-- The body of the loop of `generate_parameter_distribution_histogram` for defined
interaction `i`: the class as `adjust_cutoffs_for_basis` leaves it and the `.hist` file
written from the values of the `.dist` file.  A negative `num_bins` makes `new[]` throw;
with `num_bins = 0` the statement `bin_centers[0] = ...` writes outside a zero-length array,
which the source leaves undefined: in both cases the model stops with an error. -/
def generate_parameter_distribution_histogram_at (VERYSMALL_F : ℚ)
    (adjust_cutoffs_for_basis : InteractionClassSpec → Nat → InteractionClassSpec)
    (ispec : InteractionClassSpec) (i : Nat) (dist_file : List ℚ) :
    Except String (InteractionClassSpec × HistFile) :=
  let nb := generate_parameter_distribution_histogram_num_bins adjust_cutoffs_for_basis ispec i
  let ispec1 := nb.1
  let num_bins := nb.2
  if num_bins < 0 then
    Except.error "std::bad_array_new_length"
  else if num_bins = 0 then
    Except.error "bin_centers[0]: write outside the array"
  else
    let centers := bin_centers (ispec1.lower_cutoffs i) ispec1.fm_binwidth num_bins.toNat
    let counts := populate_histogram VERYSMALL_F (ispec1.lower_cutoffs i) ispec1.fm_binwidth
      num_bins dist_file
    Except.ok (ispec1, { header := "#center\tcounts\n", rows := List.zip centers counts })

/-- The routine `generate_parameter_distribution_histogram`: the loop over the defined
interactions, `dist_files i` being the values in the `.dist` file of interaction `i`.
Returns the class and the `.hist` files in the order written. -/
def generate_parameter_distribution_histogram (VERYSMALL_F : ℚ)
    (adjust_cutoffs_for_basis : InteractionClassSpec → Nat → InteractionClassSpec)
    (ispec : InteractionClassSpec) (dist_files : Nat → List ℚ) :
    Except String (InteractionClassSpec × List HistFile) :=
  (List.range ispec.n_defined.toNat).foldlM
    (fun (acc : InteractionClassSpec × List HistFile) i => do
      let res ← generate_parameter_distribution_histogram_at VERYSMALL_F
        adjust_cutoffs_for_basis acc.1 i (dist_files i)
      pure (res.1, acc.2 ++ [res.2]))
    (ispec, [])

/-- The index the spec assigns to a sample: `floor((value − lower + ε)/(0.5·binwidth))`. -/
def spec_bin_index (eps lower binwidth value : ℚ) : Int :=
  ⌊(value - lower + eps) / ((1 / 2) * binwidth)⌋

/-- The test of the population loop on the spec's index: the index of `value` lies in
`[0, num_bins)`. -/
def index_in_range (eps lower binwidth : ℚ) (num_bins : Int) (value : ℚ) : Bool :=
  decide (0 ≤ spec_bin_index eps lower binwidth value
    ∧ spec_bin_index eps lower binwidth value < num_bins)

/-! ## Boltzmann inverter: the clamp -/

/-- The statement `if (potential > VERYLARGE || potential < - VERYLARGE) potential =
VERYLARGE;` of both read loops, as a function of the potential computed before it. -/
def clamp_potential (VERYLARGE : ℚ) (potential : Double) : Double :=
  if potential.gt VERYLARGE || potential.lt (-VERYLARGE) then Double.finite VERYLARGE
  else potential

/-- The potential the pair loop has computed when it reaches the clamp. -/
def pair_potential (log : ℚ → ℚ) (binwidth : ℚ) (mat : MATRIX_DATA)
    (num_of_pairs volume : ℚ) (r : ℚ) (counts : Int) : Double :=
  if counts > 0 then
    let dr := r - (1 / 2) * binwidth
    let normalized_counts :=
      double_div ((counts : ℚ) * 3) (4 * PI * (r * r * r - dr * dr * dr))
    let normalized_counts :=
      normalized_counts.mul (double_div (mat.normalization * volume) num_of_pairs)
    (Double.finite (-mat.temperature * mat.boltzmann)).mul (Double.log log normalized_counts)
  else
    Double.finite 100

/-- The potential the non-pair loop has computed when it reaches the clamp. -/
def other_potential (log : ℚ → ℚ) (mat : MATRIX_DATA) (num_of_pairs : ℚ) (counts : Int) :
    Double :=
  if counts > 0 then
    let normalized_counts := double_div ((counts : ℚ) * 2 * mat.normalization) num_of_pairs
    (Double.finite (-mat.temperature * mat.boltzmann)).mul (Double.log log normalized_counts)
  else
    Double.finite 100

/-- An angular class with bounds `0` and `0.3` and bin width `0.1`. -/
def tenth_bin_class : InteractionClassSpec :=
  { class_type := kAngularBonded, class_subtype := 0, cutoff := 0, fm_binwidth := 1 / 10,
    output_parameter_distribution := 1, n_defined := 1,
    lower_cutoffs := fun _ => 0, upper_cutoffs := fun _ => 3 / 10,
    defined_to_matched_intrxn_index_map := fun _ => 1, n_to_force_match := 1,
    output_range_file_handles := fun _ => [] }

/-- The computer of `tenth_bin_class`, positioned on its interaction 0. -/
def tenth_bin_computer : InteractionClassComputer :=
  { ispec := tenth_bin_class
    index_among_defined_intrxns := 0
    calculate_fm_matrix_elements := Evaluator.calc_angular_three_body_sampling_range }

/-- A bonded class whose only interaction was observed at the single value `3/2`. -/
def single_value_class : InteractionClassSpec :=
  { class_type := kPairBonded, class_subtype := 0, cutoff := 0, fm_binwidth := 1 / 20,
    output_parameter_distribution := 1, n_defined := 1,
    lower_cutoffs := fun _ => 3 / 2, upper_cutoffs := fun _ => 3 / 2,
    defined_to_matched_intrxn_index_map := fun _ => 1, n_to_force_match := 1,
    output_range_file_handles := fun _ => [] }

/-- An angular computer with the bounds and bin width of `four_bin_computer`. -/
def angular_computer : InteractionClassComputer :=
  { ispec := { four_bin_computer.ispec with class_type := kAngularBonded }
    index_among_defined_intrxns := 0
    calculate_fm_matrix_elements := Evaluator.calc_angular_three_body_sampling_range }

/-! ## Theorems -/

/-! ### Range tracking -/

theorem initialize_ranges_at (VERYLARGE : ℚ) (lower_cutoffs upper_cutoffs : Nat → ℚ)
    (num : Nat → Nat) (n : Nat) (i : Nat) (hi : i < n) :
    let r := (List.range n).foldl
      (fun (st : (Nat → ℚ) × (Nat → ℚ) × (Nat → Nat)) i =>
        (Function.update st.1 i VERYLARGE,
         Function.update st.2.1 i (-VERYLARGE),
         Function.update st.2.2 i (i + 1)))
      (lower_cutoffs, upper_cutoffs, num)
    r.1 i = VERYLARGE ∧ r.2.1 i = -VERYLARGE ∧ r.2.2 i = i + 1 := by
  induction n with
  | zero => omega
  | succ n ih =>
    simp only [List.range_succ, List.foldl_append, List.foldl_cons, List.foldl_nil]
    by_cases h : i = n
    · subst h
      simp
    · have hlt : i < n := by omega
      have := ih hlt
      simp only at this
      simp [Function.update_noteq h, this]

theorem initialize_ranges_spec (VERYLARGE : ℚ) (tol : Int) (lower_cutoffs upper_cutoffs : Nat → ℚ)
    (num : Nat → Nat) (i : Nat) (hi : (i : Int) < tol) :
    (initialize_ranges VERYLARGE tol lower_cutoffs upper_cutoffs num).1 i = VERYLARGE ∧
    (initialize_ranges VERYLARGE tol lower_cutoffs upper_cutoffs num).2.1 i = -VERYLARGE ∧
    (initialize_ranges VERYLARGE tol lower_cutoffs upper_cutoffs num).2.2 i = i + 1 := by
  have h : i < tol.toNat := by omega
  exact initialize_ranges_at VERYLARGE lower_cutoffs upper_cutoffs num tol.toNat i h

theorem two_body_lower (c : InteractionClassComputer) (p : ℚ) :
    (calc_isotropic_two_body_sampling_range c p).ispec.lower_cutoffs =
      if c.ispec.lower_cutoffs c.index_among_defined_intrxns > p then
        Function.update c.ispec.lower_cutoffs c.index_among_defined_intrxns p
      else c.ispec.lower_cutoffs := by
  simp only [calc_isotropic_two_body_sampling_range, fprintf_param]
  split_ifs <;> rfl

theorem two_body_upper (c : InteractionClassComputer) (p : ℚ) :
    (calc_isotropic_two_body_sampling_range c p).ispec.upper_cutoffs =
      if c.ispec.upper_cutoffs c.index_among_defined_intrxns < p then
        Function.update c.ispec.upper_cutoffs c.index_among_defined_intrxns p
      else c.ispec.upper_cutoffs := by
  simp only [calc_isotropic_two_body_sampling_range, fprintf_param]
  split_ifs <;> rfl

theorem update_min (f : Nat → ℚ) (i : Nat) (p : ℚ) :
    (if f i > p then Function.update f i p else f) i = min (f i) p := by
  by_cases h : f i > p
  · simp [h, min_eq_right h.le]
  · simp [h, min_eq_left (not_lt.mp h)]

theorem update_max (f : Nat → ℚ) (i : Nat) (p : ℚ) :
    (if f i < p then Function.update f i p else f) i = max (f i) p := by
  by_cases h : f i < p
  · simp [h, max_eq_right h.le]
  · simp [h, max_eq_left (not_lt.mp h)]

theorem two_body_tightens : TightensBounds calc_isotropic_two_body_sampling_range := by
  intro c p
  refine ⟨rfl, ?_, ?_⟩
  · rw [two_body_lower, update_min]
  · rw [two_body_upper, update_max]

theorem fold_tightens (ev : InteractionClassComputer → ℚ → InteractionClassComputer)
    (hev : TightensBounds ev) (xs : List ℚ) (c : InteractionClassComputer) :
    (xs.foldl ev c).index_among_defined_intrxns = c.index_among_defined_intrxns ∧
    (((xs.foldl ev c).ispec.lower_cutoffs c.index_among_defined_intrxns : ℚ) : WithTop ℚ)
      = min ((c.ispec.lower_cutoffs c.index_among_defined_intrxns : ℚ) : WithTop ℚ) xs.minimum ∧
    (((xs.foldl ev c).ispec.upper_cutoffs c.index_among_defined_intrxns : ℚ) : WithBot ℚ)
      = max ((c.ispec.upper_cutoffs c.index_among_defined_intrxns : ℚ) : WithBot ℚ) xs.maximum := by
  induction xs generalizing c with
  | nil => simp
  | cons x xs ih =>
    obtain ⟨h1, h2, h3⟩ := hev c x
    obtain ⟨i1, i2, i3⟩ := ih (ev c x)
    rw [h1] at i1 i2 i3
    simp only [List.foldl_cons]
    refine ⟨i1, ?_, ?_⟩
    · rw [i2, h2, List.minimum_cons, WithTop.coe_min, min_assoc]
    · rw [i3, h3, List.maximum_cons, WithBot.coe_max, max_assoc]

theorem minimum_lt_of_forall (VL : ℚ) (xs : List ℚ) (hne : xs ≠ []) (h : ∀ x ∈ xs, x < VL) :
    xs.minimum < (VL : WithTop ℚ) := by
  obtain ⟨a, ha⟩ := List.exists_mem_of_ne_nil xs hne
  exact lt_of_le_of_lt (List.minimum_le_of_mem' ha) (by exact_mod_cast h a ha)

theorem angular_tightens : TightensBounds calc_angular_three_body_sampling_range := by
  intro c p
  refine ⟨rfl, ?_, ?_⟩
  · have h : (calc_angular_three_body_sampling_range c p).ispec.lower_cutoffs =
        if c.ispec.lower_cutoffs c.index_among_defined_intrxns > p then
          Function.update c.ispec.lower_cutoffs c.index_among_defined_intrxns p
        else c.ispec.lower_cutoffs := by
      simp only [calc_angular_three_body_sampling_range, fprintf_param]
      split_ifs <;> rfl
    rw [h, update_min]
  · have h : (calc_angular_three_body_sampling_range c p).ispec.upper_cutoffs =
        if c.ispec.upper_cutoffs c.index_among_defined_intrxns < p then
          Function.update c.ispec.upper_cutoffs c.index_among_defined_intrxns p
        else c.ispec.upper_cutoffs := by
      simp only [calc_angular_three_body_sampling_range, fprintf_param]
      split_ifs <;> rfl
    rw [h, update_max]

theorem dihedral_tightens :
    TightensBounds calc_dihedral_four_body_interaction_sampling_range := by
  intro c p
  refine ⟨rfl, ?_, ?_⟩
  · have h : (calc_dihedral_four_body_interaction_sampling_range c p).ispec.lower_cutoffs =
        if c.ispec.lower_cutoffs c.index_among_defined_intrxns > p then
          Function.update c.ispec.lower_cutoffs c.index_among_defined_intrxns p
        else c.ispec.lower_cutoffs := by
      simp only [calc_dihedral_four_body_interaction_sampling_range, fprintf_param]
      split_ifs <;> rfl
    rw [h, update_min]
  · have h : (calc_dihedral_four_body_interaction_sampling_range c p).ispec.upper_cutoffs =
        if c.ispec.upper_cutoffs c.index_among_defined_intrxns < p then
          Function.update c.ispec.upper_cutoffs c.index_among_defined_intrxns p
        else c.ispec.upper_cutoffs := by
      simp only [calc_dihedral_four_body_interaction_sampling_range, fprintf_param]
      split_ifs <;> rfl
    rw [h, update_max]

theorem lt_maximum_of_forall (VL : ℚ) (xs : List ℚ) (hne : xs ≠ []) (h : ∀ x ∈ xs, -VL < x) :
    ((-VL : ℚ) : WithBot ℚ) < xs.maximum := by
  obtain ⟨a, ha⟩ := List.exists_mem_of_ne_nil xs hne
  exact lt_of_lt_of_le (by exact_mod_cast h a ha) (List.le_maximum_of_mem' ha)

/-- C1: starting from bounds set by `initialize_ranges`, feeding a non-empty sequence of
samples strictly between `-VERYLARGE` and `VERYLARGE` to the two-body, the angle or the
dihedral evaluator leaves `lower` equal to the minimum of the sequence and `upper` equal
to its maximum. -/
theorem range_tracking_min_max (VERYLARGE : ℚ) (iclass : InteractionClassSpec) (tol : Int)
    (i : Nat) (hi : (i : Int) < tol) (ev0 : Evaluator) (xs : List ℚ) (hne : xs ≠ [])
    (hb : ∀ x ∈ xs, -VERYLARGE < x ∧ x < VERYLARGE) :
    ∀ ev ∈ [calc_isotropic_two_body_sampling_range, calc_angular_three_body_sampling_range,
            calc_dihedral_four_body_interaction_sampling_range],
      (((xs.foldl ev (initialized_computer VERYLARGE iclass tol i ev0)).ispec.lower_cutoffs i
          : ℚ) : WithTop ℚ) = xs.minimum ∧
      (((xs.foldl ev (initialized_computer VERYLARGE iclass tol i ev0)).ispec.upper_cutoffs i
          : ℚ) : WithBot ℚ) = xs.maximum := by
  intro ev hev
  have ht : TightensBounds ev := by
    simp only [List.mem_cons, List.mem_singleton, List.not_mem_nil, or_false] at hev
    rcases hev with h | h | h
    · rw [h]; exact two_body_tightens
    · rw [h]; exact angular_tightens
    · rw [h]; exact dihedral_tightens
  obtain ⟨hlo, hup, _⟩ := initialize_ranges_spec VERYLARGE tol iclass.lower_cutoffs
    iclass.upper_cutoffs iclass.defined_to_matched_intrxn_index_map i hi
  obtain ⟨_, h2, h3⟩ := fold_tightens ev ht xs (initialized_computer VERYLARGE iclass tol i ev0)
  have e1 : (initialized_computer VERYLARGE iclass tol i ev0).index_among_defined_intrxns = i :=
    rfl
  have e2 : (initialized_computer VERYLARGE iclass tol i ev0).ispec.lower_cutoffs i
      = VERYLARGE := hlo
  have e3 : (initialized_computer VERYLARGE iclass tol i ev0).ispec.upper_cutoffs i
      = -VERYLARGE := hup
  rw [e1] at h2 h3
  rw [e2] at h2
  rw [e3] at h3
  refine ⟨?_, ?_⟩
  · rw [h2]
    exact min_eq_right (minimum_lt_of_forall VERYLARGE xs hne (fun x hx => (hb x hx).2)).le
  · rw [h3]
    exact max_eq_right (lt_maximum_of_forall VERYLARGE xs hne (fun x hx => (hb x hx).1)).le

theorem range_tracking_min_max_witness :
    ((0 : Nat) : Int) < 1 ∧ ([3, 1, 2] : List ℚ) ≠ [] ∧
    (∀ x ∈ ([3, 1, 2] : List ℚ), -(1000 : ℚ) < x ∧ x < 1000) ∧
    ∀ ev ∈ [calc_isotropic_two_body_sampling_range, calc_angular_three_body_sampling_range,
            calc_dihedral_four_body_interaction_sampling_range],
      ((((([3, 1, 2] : List ℚ)).foldl ev (initialized_computer 1000 example_class 1 0
          Evaluator.calc_nothing)).ispec.lower_cutoffs 0 : ℚ) : WithTop ℚ)
        = ([3, 1, 2] : List ℚ).minimum ∧
      ((((([3, 1, 2] : List ℚ)).foldl ev (initialized_computer 1000 example_class 1 0
          Evaluator.calc_nothing)).ispec.upper_cutoffs 0 : ℚ) : WithBot ℚ)
        = ([3, 1, 2] : List ℚ).maximum :=
  ⟨by decide, by simp, by norm_num,
   range_tracking_min_max 1000 example_class 1 0 (by decide) Evaluator.calc_nothing [3, 1, 2]
     (by simp) (by norm_num)⟩

/-! ### Range writer -/

/-- C3: an interaction initialised by `initialize_ranges` that received no sample is
written as `-1 -1 none`, for every class kind and every cutoff; its stored bounds are both
overwritten with `-1`. -/
theorem unsampled_serialises_none (VERYLARGE VERYSMALL_F : ℚ) (hsmall : 0 < VERYSMALL_F)
    (iclass : InteractionClassSpec) (tol : Int) (i : Nat) (hi : (i : Int) < tol)
    (ev : Evaluator) (name : Nat → String) (file : List RangeLine) :
    (write_single_range_specification VERYLARGE VERYSMALL_F
        (initialized_computer VERYLARGE iclass tol i ev) name file i).2
      = file ++ [{ basename := name i, lower := -1, upper := -1, tag := " none" }] ∧
    (write_single_range_specification VERYLARGE VERYSMALL_F
        (initialized_computer VERYLARGE iclass tol i ev) name file i).1.ispec.lower_cutoffs i
      = -1 ∧
    (write_single_range_specification VERYLARGE VERYSMALL_F
        (initialized_computer VERYLARGE iclass tol i ev) name file i).1.ispec.upper_cutoffs i
      = -1 := by
  obtain ⟨_, hup, _⟩ := initialize_ranges_spec VERYLARGE tol iclass.lower_cutoffs
    iclass.upper_cutoffs iclass.defined_to_matched_intrxn_index_map i hi
  have e3 : (initialized_computer VERYLARGE iclass tol i ev).ispec.upper_cutoffs i
      = -VERYLARGE := hup
  simp [write_single_range_specification, e3, hsmall]

theorem unsampled_serialises_none_witness :
    (0 : ℚ) < 1 / 1000000 ∧ ((0 : Nat) : Int) < 1 ∧
    (write_single_range_specification 1000 (1 / 1000000)
        (initialized_computer 1000 example_class 1 0 Evaluator.calc_nothing)
        (fun _ => "A A") [] 0).2
      = [] ++ [{ basename := "A A", lower := -1, upper := -1, tag := " none" }] ∧
    (write_single_range_specification 1000 (1 / 1000000)
        (initialized_computer 1000 example_class 1 0 Evaluator.calc_nothing)
        (fun _ => "A A") [] 0).1.ispec.lower_cutoffs 0 = -1 ∧
    (write_single_range_specification 1000 (1 / 1000000)
        (initialized_computer 1000 example_class 1 0 Evaluator.calc_nothing)
        (fun _ => "A A") [] 0).1.ispec.upper_cutoffs 0 = -1 :=
  ⟨by norm_num, by decide,
   unsampled_serialises_none 1000 (1 / 1000000) (by norm_num) example_class 1 0 (by decide)
     Evaluator.calc_nothing (fun _ => "A A") [] ⟩

theorem initialized_computer_one (VL : ℚ) (c : InteractionClassSpec) (ev : Evaluator) :
    initialized_computer VL c 1 0 ev =
      { ispec := { c with
          lower_cutoffs := Function.update c.lower_cutoffs 0 VL
          upper_cutoffs := Function.update c.upper_cutoffs 0 (-VL)
          defined_to_matched_intrxn_index_map :=
            Function.update c.defined_to_matched_intrxn_index_map 0 1 }
        index_among_defined_intrxns := 0
        calculate_fm_matrix_elements := ev } := by
  simp [initialized_computer, initialize_ranges, List.range_succ]

/-- The two non-trivial branches of the writer for a PairNonbonded class, on any stored
bounds that are not the unsampled sentinel. -/
theorem write_pair_nonbonded_cases (VERYLARGE VERYSMALL_F : ℚ)
    (icomp : InteractionClassComputer) (name : Nat → String) (file : List RangeLine) (i : Nat)
    (hpair : icomp.ispec.class_type = kPairNonbonded)
    (hsampled : ¬ |icomp.ispec.upper_cutoffs i + VERYLARGE| < VERYSMALL_F) :
    (icomp.ispec.lower_cutoffs i > icomp.ispec.cutoff →
      (write_single_range_specification VERYLARGE VERYSMALL_F icomp name file i).2
        = file ++ [{ basename := name i, lower := -1, upper := -1, tag := " none" }] ∧
      (write_single_range_specification VERYLARGE VERYSMALL_F icomp name file i).1.ispec.lower_cutoffs
        i = -1 ∧
      (write_single_range_specification VERYLARGE VERYSMALL_F icomp name file i).1.ispec.upper_cutoffs
        i = -1) ∧
    (icomp.ispec.lower_cutoffs i ≤ icomp.ispec.cutoff →
      icomp.ispec.upper_cutoffs i > icomp.ispec.cutoff →
      (write_single_range_specification VERYLARGE VERYSMALL_F icomp name file i).1.ispec.lower_cutoffs
        i = icomp.ispec.lower_cutoffs i ∧
      (write_single_range_specification VERYLARGE VERYSMALL_F icomp name file i).1.ispec.upper_cutoffs
        i = icomp.ispec.cutoff ∧
      (write_single_range_specification VERYLARGE VERYSMALL_F icomp name file i).2
        = file ++ [{ basename := name i, lower := icomp.ispec.lower_cutoffs i,
                     upper := icomp.ispec.cutoff,
                     tag := if icomp.ispec.cutoff = -1 then " none" else " fm" }]) := by
  refine ⟨?_, ?_⟩
  · intro hlo
    simp [write_single_range_specification, hpair, hsampled, hlo]
  · intro hlo hup
    have hlo2 : ¬ icomp.ispec.lower_cutoffs i > icomp.ispec.cutoff := not_lt.mpr hlo
    simp [write_single_range_specification, hpair, hsampled, hlo2, hup]

theorem two_body_keeps_class (c : InteractionClassComputer) (p : ℚ) :
    (calc_isotropic_two_body_sampling_range c p).ispec.class_type = c.ispec.class_type ∧
    (calc_isotropic_two_body_sampling_range c p).ispec.cutoff = c.ispec.cutoff := by
  simp only [calc_isotropic_two_body_sampling_range, fprintf_param]
  constructor <;> split_ifs <;> rfl

theorem fold_two_body_keeps_class (xs : List ℚ) (c : InteractionClassComputer) :
    (xs.foldl calc_isotropic_two_body_sampling_range c).ispec.class_type = c.ispec.class_type ∧
    (xs.foldl calc_isotropic_two_body_sampling_range c).ispec.cutoff = c.ispec.cutoff := by
  induction xs generalizing c with
  | nil => exact ⟨rfl, rfl⟩
  | cons x xs ih =>
    obtain ⟨h1, h2⟩ := ih (calc_isotropic_two_body_sampling_range c x)
    obtain ⟨k1, k2⟩ := two_body_keeps_class c x
    simp only [List.foldl_cons]
    exact ⟨h1.trans k1, h2.trans k2⟩

/-- The stored bounds of an interaction whose samples are all non-negative are
non-negative, the sentinel `VERYLARGE` being non-negative. -/
theorem sampled_distances_nonneg (VERYLARGE : ℚ) (hVL : 0 ≤ VERYLARGE)
    (iclass : InteractionClassSpec) (tol : Int) (i : Nat) (hi : (i : Int) < tol)
    (ev0 : Evaluator) (xs : List ℚ) (hne : xs ≠ []) (hx : ∀ x ∈ xs, 0 ≤ x) :
    0 ≤ (xs.foldl calc_isotropic_two_body_sampling_range
          (initialized_computer VERYLARGE iclass tol i ev0)).ispec.lower_cutoffs i ∧
    0 ≤ (xs.foldl calc_isotropic_two_body_sampling_range
          (initialized_computer VERYLARGE iclass tol i ev0)).ispec.upper_cutoffs i := by
  obtain ⟨hlo, hup, _⟩ := initialize_ranges_spec VERYLARGE tol iclass.lower_cutoffs
    iclass.upper_cutoffs iclass.defined_to_matched_intrxn_index_map i hi
  obtain ⟨_, h2, h3⟩ := fold_tightens calc_isotropic_two_body_sampling_range two_body_tightens
    xs (initialized_computer VERYLARGE iclass tol i ev0)
  have e1 : (initialized_computer VERYLARGE iclass tol i ev0).index_among_defined_intrxns = i :=
    rfl
  have e2 : (initialized_computer VERYLARGE iclass tol i ev0).ispec.lower_cutoffs i
      = VERYLARGE := hlo
  rw [e1] at h2 h3
  rw [e2] at h2
  constructor
  · have : ((0 : ℚ) : WithTop ℚ) ≤ min ((VERYLARGE : ℚ) : WithTop ℚ) xs.minimum :=
      le_min (by exact_mod_cast hVL)
        (List.le_minimum_of_forall_le (fun a ha => by exact_mod_cast hx a ha))
    rw [← h2] at this
    exact_mod_cast this
  · obtain ⟨a, ha⟩ := List.exists_mem_of_ne_nil xs hne
    have h0 : ((0 : ℚ) : WithBot ℚ) ≤ xs.maximum :=
      le_trans (by exact_mod_cast hx a ha) (List.le_maximum_of_mem' ha)
    rw [← WithBot.coe_le_coe, h3]
    exact le_trans h0 (le_max_right _ _)

/-- C2: for a PairNonbonded class and an interaction that was sampled (its bounds come from
`initialize_ranges` followed by a non-empty sequence of distances fed to the two-body
evaluator), the writer does the following with the stored bounds `lower`, `upper`: if
`lower > cutoff` it sets both to `-1` and writes `-1 -1 none`; if `lower <= cutoff` and
`upper > cutoff` it leaves `lower`, sets `upper` to the cutoff, and writes the tag `fm`. -/
theorem pair_nonbonded_cutoff_clamping (VERYLARGE VERYSMALL_F : ℚ)
    (hsmall : 0 < VERYSMALL_F) (hlarge : VERYSMALL_F ≤ VERYLARGE)
    (iclass : InteractionClassSpec) (hpair : iclass.class_type = kPairNonbonded)
    (tol : Int) (i : Nat) (hi : (i : Int) < tol) (ev0 : Evaluator)
    (xs : List ℚ) (hne : xs ≠ []) (hx : ∀ x ∈ xs, 0 ≤ x)
    (name : Nat → String) (file : List RangeLine)
    (icomp : InteractionClassComputer)
    (hicomp : icomp = xs.foldl calc_isotropic_two_body_sampling_range
      (initialized_computer VERYLARGE iclass tol i ev0)) :
    (icomp.ispec.lower_cutoffs i > icomp.ispec.cutoff →
      (write_single_range_specification VERYLARGE VERYSMALL_F icomp name file i).2
        = file ++ [{ basename := name i, lower := -1, upper := -1, tag := " none" }] ∧
      (write_single_range_specification VERYLARGE VERYSMALL_F icomp name file i).1.ispec.lower_cutoffs
        i = -1 ∧
      (write_single_range_specification VERYLARGE VERYSMALL_F icomp name file i).1.ispec.upper_cutoffs
        i = -1) ∧
    (icomp.ispec.lower_cutoffs i ≤ icomp.ispec.cutoff →
      icomp.ispec.upper_cutoffs i > icomp.ispec.cutoff →
      (write_single_range_specification VERYLARGE VERYSMALL_F icomp name file i).1.ispec.lower_cutoffs
        i = icomp.ispec.lower_cutoffs i ∧
      (write_single_range_specification VERYLARGE VERYSMALL_F icomp name file i).1.ispec.upper_cutoffs
        i = icomp.ispec.cutoff ∧
      (write_single_range_specification VERYLARGE VERYSMALL_F icomp name file i).2
        = file ++ [{ basename := name i, lower := icomp.ispec.lower_cutoffs i,
                     upper := icomp.ispec.cutoff, tag := " fm" }]) := by
  have hVL : 0 ≤ VERYLARGE := le_trans hsmall.le hlarge
  obtain ⟨hlo0, hup0⟩ := sampled_distances_nonneg VERYLARGE hVL iclass tol i hi ev0 xs hne hx
  rw [← hicomp] at hlo0 hup0
  have hclass : icomp.ispec.class_type = kPairNonbonded := by
    rw [hicomp, (fold_two_body_keeps_class xs _).1]
    exact hpair
  have hsampled : ¬ |icomp.ispec.upper_cutoffs i + VERYLARGE| < VERYSMALL_F := by
    rw [abs_of_nonneg (by linarith)]
    linarith
  obtain ⟨c1, c2⟩ := write_pair_nonbonded_cases VERYLARGE VERYSMALL_F icomp name file i hclass
    hsampled
  refine ⟨c1, ?_⟩
  intro hlo hup
  obtain ⟨d1, d2, d3⟩ := c2 hlo hup
  have hcut : icomp.ispec.cutoff ≠ -1 := by
    intro h
    rw [h] at hlo
    linarith
  rw [if_neg hcut] at d3
  exact ⟨d1, d2, d3⟩

theorem example_computer_eval :
    example_computer.ispec.class_type = kPairNonbonded ∧
    example_computer.ispec.cutoff = 12 / 10 ∧
    example_computer.ispec.lower_cutoffs 0 = 1 / 10 ∧
    example_computer.ispec.upper_cutoffs 0 = 3 / 2 := by
  unfold example_computer
  rw [initialized_computer_one]
  simp only [List.foldl_cons, List.foldl_nil]
  norm_num [calc_isotropic_two_body_sampling_range, example_class]

theorem pair_nonbonded_cutoff_clamping_witness :
    (0 : ℚ) < 1 / 1000000 ∧ (1 / 1000000 : ℚ) ≤ 1000 ∧
    ({ example_class with output_parameter_distribution := 0 }
      : InteractionClassSpec).class_type = kPairNonbonded ∧
    ((0 : Nat) : Int) < 1 ∧ ([1 / 10, 3 / 2, 1] : List ℚ) ≠ [] ∧
    (∀ x ∈ ([1 / 10, 3 / 2, 1] : List ℚ), 0 ≤ x) ∧
    example_computer.ispec.lower_cutoffs 0 ≤ example_computer.ispec.cutoff ∧
    example_computer.ispec.upper_cutoffs 0 > example_computer.ispec.cutoff ∧
    (write_single_range_specification 1000 (1 / 1000000) example_computer (fun _ => "A B") []
        0).1.ispec.lower_cutoffs 0 = example_computer.ispec.lower_cutoffs 0 ∧
    (write_single_range_specification 1000 (1 / 1000000) example_computer (fun _ => "A B") []
        0).1.ispec.upper_cutoffs 0 = example_computer.ispec.cutoff ∧
    (write_single_range_specification 1000 (1 / 1000000) example_computer (fun _ => "A B") []
        0).2
      = [] ++ [{ basename := "A B", lower := example_computer.ispec.lower_cutoffs 0,
                 upper := example_computer.ispec.cutoff, tag := " fm" }] := by
  obtain ⟨_, h2, h3, h4⟩ := example_computer_eval
  have hlo : example_computer.ispec.lower_cutoffs 0 ≤ example_computer.ispec.cutoff := by
    rw [h2, h3]; norm_num
  have hup : example_computer.ispec.upper_cutoffs 0 > example_computer.ispec.cutoff := by
    rw [h2, h4]; norm_num
  have hx : ∀ x ∈ ([1 / 10, 3 / 2, 1] : List ℚ), 0 ≤ x := by norm_num
  exact ⟨by norm_num, by norm_num, rfl, by decide, by simp, hx, hlo, hup,
    (pair_nonbonded_cutoff_clamping 1000 (1 / 1000000) (by norm_num) (by norm_num)
      { example_class with output_parameter_distribution := 0 } rfl 1 0 (by decide)
      Evaluator.calc_isotropic_two_body_sampling_range [1 / 10, 3 / 2, 1] (by simp) hx
      (fun _ => "A B") [] example_computer rfl).2 hlo hup⟩

/-- C4 at a failing input: a DihedralBonded interaction that received the single sample
`-1` has the bounds `-1`, `-1`; the writer does not take it for unsampled by its test on
`-VERYLARGE`, leaves both bounds alone, and then writes the tag `none`, not `fm`, because it
recognises an unsampled interaction by the value `upper == -1.0`. -/
theorem sampled_dihedral_tagged_none :
    dihedral_computer.ispec.class_type = kDihedralBonded ∧
    dihedral_computer.ispec.lower_cutoffs 0 = -1 ∧
    dihedral_computer.ispec.upper_cutoffs 0 = -1 ∧
    (¬ |dihedral_computer.ispec.upper_cutoffs 0 + 1000| < 1 / 1000000) ∧
    (write_single_range_specification 1000 (1 / 1000000) dihedral_computer
        (fun _ => "A B C D") [] 0).2
      = [{ basename := "A B C D", lower := -1, upper := -1, tag := " none" }] := by
  unfold dihedral_computer
  rw [initialized_computer_one]
  simp only [List.foldl_cons, List.foldl_nil]
  norm_num [calc_dihedral_four_body_interaction_sampling_range, dihedral_class,
    write_single_range_specification, abs_lt]

/-! ### Rounding of doubles and conversion to `int` -/

theorem round_nearest_even_of_near (x : ℚ) (m : Int) (h : |x - m| < 1 / 2) :
    round_nearest_even x = m := by
  rw [abs_lt] at h
  obtain ⟨h1, h2⟩ := h
  unfold round_nearest_even
  by_cases hm : (m : ℚ) ≤ x
  · have hf : ⌊x⌋ = m := by
      rw [Int.floor_eq_iff]
      exact ⟨hm, by linarith⟩
    rw [hf, if_pos (by linarith)]
  · have hf : ⌊x⌋ = m - 1 := by
      rw [Int.floor_eq_iff]
      push_cast
      exact ⟨by linarith, by linarith⟩
    have hlt : x < m := not_le.mp hm
    rw [hf]
    push_cast
    rw [if_neg (by linarith), if_pos (by linarith)]
    ring

theorem ulp_exponent_of_bounds (q : ℚ) (k : Int) (h1 : (2 : ℚ) ^ k ≤ |q|)
    (h2 : |q| < (2 : ℚ) ^ (k + 1)) (h3 : -1022 ≤ k) : ulp_exponent q = k - 52 := by
  have hpos : 0 < |q| := lt_of_lt_of_le (by positivity) h1
  have hlog : Int.log 2 |q| = k := by
    apply le_antisymm
    · have := (Int.lt_zpow_iff_log_lt (R := ℚ) (b := 2) (by norm_num) hpos).mp
        (by exact_mod_cast h2)
      omega
    · exact (Int.zpow_le_iff_le_log (R := ℚ) (b := 2) (by norm_num) hpos).mp
        (by exact_mod_cast h1)
  unfold ulp_exponent
  rw [hlog]
  omega

theorem to_double_of_bounds (q : ℚ) (k m : Int) (h1 : (2 : ℚ) ^ k ≤ |q|)
    (h2 : |q| < (2 : ℚ) ^ (k + 1)) (h3 : -1022 ≤ k)
    (h4 : |q / 2 ^ (k - 52) - m| < 1 / 2) : to_double q = m * 2 ^ (k - 52) := by
  unfold to_double
  rw [ulp_exponent_of_bounds q k h1 h2 h3, round_nearest_even_of_near _ m h4]

theorem to_double_zero : to_double 0 = 0 := by
  have h : round_nearest_even 0 = 0 := by
    simpa using round_nearest_even_of_near 0 0 (by norm_num)
  simp [to_double, h]

theorem range_over_binwidth_eval (ispec : InteractionClassSpec) (i : Nat) (u l b d r : ℚ)
    (hu : to_double (ispec.upper_cutoffs i) = u) (hl : to_double (ispec.lower_cutoffs i) = l)
    (hb : to_double ispec.fm_binwidth = b) (hd : to_double (u - l) = d)
    (hr : to_double (d / b) = r) : range_over_binwidth ispec i = r := by
  unfold range_over_binwidth
  rw [hu, hl, hb, hd, hr]

theorem double_to_int_of_bounds (x : ℚ) (n : Int) (h0 : 0 ≤ x) (h1 : (n : ℚ) ≤ x)
    (h2 : x < n + 1) : double_to_int x = n := by
  unfold double_to_int
  rw [if_pos h0, Int.floor_eq_iff]
  exact ⟨h1, h2⟩

/-! ### Histogram builder -/

theorem num_bins_of_range (adjust_cutoffs_for_basis : InteractionClassSpec → Nat →
    InteractionClassSpec) (ispec : InteractionClassSpec) (i : Nat) (r h : ℚ) (n : Int)
    (hs : ispec.upper_cutoffs i ≠ -1)
    (hr : range_over_binwidth (adjust_cutoffs_for_basis ispec i) i = r)
    (hh : to_double (r + 1 / 2) = h) (hn : double_to_int h = n) :
    (generate_parameter_distribution_histogram_num_bins adjust_cutoffs_for_basis ispec i).2
      = int_wrap (2 * n) := by
  simp only [generate_parameter_distribution_histogram_num_bins, if_neg hs]
  rw [hr, hh, hn]

theorem fine_bin_range :
    range_over_binwidth fine_bin_class 0 = 1073741824 ∧
    to_double (1073741824 + 1 / 2) = 2147483649 / 2 := by
  have eu : to_double 64 = 64 := by
    rw [to_double_of_bounds 64 (6) 4503599627370496
      (by norm_num [abs_of_pos]) (by norm_num [abs_of_pos]) (by norm_num)
      (by norm_num [abs_lt])]
    norm_num
  have el : to_double 0 = 0 := to_double_zero
  have eb : to_double (1 / 16777216) = 1 / 16777216 := by
    rw [to_double_of_bounds (1 / 16777216) (-24) 4503599627370496
      (by norm_num [abs_of_pos]) (by norm_num [abs_of_pos]) (by norm_num)
      (by norm_num [abs_lt])]
    norm_num
  have ed : to_double (64 - 0) = 64 := by
    rw [show (64 - 0 : ℚ) = 64 by norm_num,
      to_double_of_bounds 64 (6) 4503599627370496
        (by norm_num [abs_of_pos]) (by norm_num [abs_of_pos]) (by norm_num)
        (by norm_num [abs_lt])]
    norm_num
  have eq : to_double (64 / (1 / 16777216)) = 1073741824 := by
    rw [show (64 / (1 / 16777216) : ℚ) = 1073741824 by norm_num,
      to_double_of_bounds 1073741824 (30) 4503599627370496
        (by norm_num [abs_of_pos]) (by norm_num [abs_of_pos]) (by norm_num)
        (by norm_num [abs_lt])]
    norm_num
  have eh : to_double (1073741824 + 1 / 2) = 2147483649 / 2 := by
    rw [show (1073741824 + 1 / 2 : ℚ) = 2147483649 / 2 by norm_num,
      to_double_of_bounds (2147483649 / 2) (30) 4503599629467648
        (by norm_num [abs_of_pos]) (by norm_num [abs_of_pos]) (by norm_num)
        (by norm_num [abs_lt])]
    norm_num
  exact ⟨range_over_binwidth_eval _ 0 _ _ _ _ _ eu el eb ed eq, eh⟩

/-- C5 at a failing input: for a sampled interaction with `lower = 0`, `upper = 64` and bin
width `2^-24` (bounds on the grid of the bin width, left alone by the basis adjustment) the
ratio is `2^30`, and the `int` product `2 * (int)(ratio + 0.5)` leaves the range of `int`:
the bin count is `-2147483648`, the allocation `new double[num_bins]` throws and no
histogram is written, whereas `round(2*(upper-lower)/binwidth)` is `2147483648`. -/
theorem num_bins_int_overflow (VERYSMALL_F : ℚ) (dist_file : List ℚ) :
    fine_bin_class.upper_cutoffs 0 ≠ -1 ∧
    fine_bin_class.lower_cutoffs 0 ≤ fine_bin_class.upper_cutoffs 0 ∧
    0 < fine_bin_class.fm_binwidth ∧
    (generate_parameter_distribution_histogram_num_bins (fun s _ => s) fine_bin_class 0).2
      = -2147483648 ∧
    generate_parameter_distribution_histogram_at VERYSMALL_F (fun s _ => s) fine_bin_class 0
        dist_file = Except.error "std::bad_array_new_length" ∧
    spec_num_bins (fine_bin_class.lower_cutoffs 0) (fine_bin_class.upper_cutoffs 0)
      fine_bin_class.fm_binwidth = 2147483648 := by
  have hs : fine_bin_class.upper_cutoffs 0 ≠ -1 := by norm_num [fine_bin_class]
  have hn : (generate_parameter_distribution_histogram_num_bins (fun s _ => s)
      fine_bin_class 0).2 = -2147483648 := by
    rw [num_bins_of_range (fun s _ => s) fine_bin_class 0 1073741824 (2147483649 / 2)
      1073741824 hs fine_bin_range.1 fine_bin_range.2
      (double_to_int_of_bounds _ _ (by norm_num) (by norm_num) (by norm_num))]
    norm_num [int_wrap]
  refine ⟨hs, by norm_num [fine_bin_class], by norm_num [fine_bin_class], hn, ?_, ?_⟩
  · simp only [generate_parameter_distribution_histogram_at, hn]
    norm_num
  · have e : (2 * ((64 : ℚ) - 0) / (1 / 16777216)) = ((2147483648 : ℤ) : ℚ) := by norm_num
    simp only [spec_num_bins, fine_bin_class]
    rw [e, round_intCast]

theorem example_bin_range :
    range_over_binwidth 
      { example_class with lower_cutoffs := fun _ => 1 / 10, upper_cutoffs := fun _ => 1 } 0 = 18 ∧
    to_double (18 + 1 / 2) = 37 / 2 := by
  have eu : to_double 1 = 1 := by
    rw [to_double_of_bounds 1 (0) 4503599627370496
      (by norm_num [abs_of_pos]) (by norm_num [abs_of_pos]) (by norm_num)
      (by norm_num [abs_lt])]
    norm_num
  have el : to_double (1 / 10) = 3602879701896397 / 36028797018963968 := by
    rw [to_double_of_bounds (1 / 10) (-4) 7205759403792794
      (by norm_num [abs_of_pos]) (by norm_num [abs_of_pos]) (by norm_num)
      (by norm_num [abs_lt])]
    norm_num
  have eb : to_double (1 / 20) = 3602879701896397 / 72057594037927936 := by
    rw [to_double_of_bounds (1 / 20) (-5) 7205759403792794
      (by norm_num [abs_of_pos]) (by norm_num [abs_of_pos]) (by norm_num)
      (by norm_num [abs_lt])]
    norm_num
  have ed : to_double
      (1
        - 3602879701896397 / 36028797018963968)
      = 8106479329266893 / 9007199254740992 := by
    rw [show (1
          - 3602879701896397 / 36028797018963968 : ℚ)
        = 32425917317067571 / 36028797018963968 by norm_num,
      to_double_of_bounds (32425917317067571 / 36028797018963968) (-1) 8106479329266893
        (by norm_num [abs_of_pos]) (by norm_num [abs_of_pos]) (by norm_num)
        (by norm_num [abs_lt])]
    norm_num
  have eq : to_double
      (8106479329266893 / 9007199254740992
        / (3602879701896397 / 72057594037927936))
      = 18 := by
    rw [show (8106479329266893 / 9007199254740992
          / (3602879701896397 / 72057594037927936) : ℚ)
        = 64851834634135144 / 3602879701896397 by norm_num,
      to_double_of_bounds (64851834634135144 / 3602879701896397) (4) 5066549580791808
        (by norm_num [abs_of_pos]) (by norm_num [abs_of_pos]) (by norm_num)
        (by norm_num [abs_lt])]
    norm_num
  have eh : to_double (18 + 1 / 2) = 37 / 2 := by
    rw [show (18 + 1 / 2 : ℚ) = 37 / 2 by norm_num,
      to_double_of_bounds (37 / 2) (4) 5207287069147136
        (by norm_num [abs_of_pos]) (by norm_num [abs_of_pos]) (by norm_num)
        (by norm_num [abs_lt])]
    norm_num
  exact ⟨range_over_binwidth_eval _ 0 _ _ _ _ _ eu el eb ed eq, eh⟩

theorem num_bins_example :
    (generate_parameter_distribution_histogram_num_bins (fun s _ => s)
        { example_class with lower_cutoffs := fun _ => 1 / 10, upper_cutoffs := fun _ => 1 }
        0).2 = 36 ∧
    spec_num_bins (1 / 10) 1 (1 / 20) = 36 := by
  refine ⟨?_, ?_⟩
  · rw [num_bins_of_range (fun s _ => s) _ 0 18 (37 / 2) 18 (by norm_num)
      example_bin_range.1 example_bin_range.2
      (double_to_int_of_bounds _ _ (by norm_num) (by norm_num) (by norm_num))]
    norm_num [int_wrap]
  · have e : (2 * ((1 : ℚ) - 1 / 10) / (1 / 20)) = ((36 : ℤ) : ℚ) := by norm_num
    simp only [spec_num_bins]
    rw [e, round_intCast]

/-! ### Pair counts -/

theorem int_wrap_of_range (x : Int) (h1 : -2147483648 ≤ x) (h2 : x < 2147483648) :
    int_wrap x = x := by
  unfold int_wrap
  omega

theorem sitecounter_snoc (n : Nat) (l : List Int) (a : Int) :
    sitecounter n (l ++ [a]) =
      if 1 ≤ a then
        (sitecounter n l).set (a - 1).toNat
          (int_wrap ((sitecounter n l).getD (a - 1).toNat 0 + 1))
      else sitecounter n l := by
  simp [sitecounter, List.foldl_append]

theorem sitecounter_length (n : Nat) (l : List Int) : (sitecounter n l).length = n := by
  induction l using List.reverseRecOn with
  | nil => simp [sitecounter]
  | append_singleton l a ih =>
    rw [sitecounter_snoc]
    split_ifs <;> simp [ih]

theorem sitecounter_count (n : Nat) (l : List Int) (t : Int) (h1 : 1 ≤ t) (h2 : t ≤ n)
    (hlen : l.length < 2147483648) :
    (sitecounter n l).getD (t - 1).toNat 0 = (l.count t : Int) := by
  induction l using List.reverseRecOn with
  | nil =>
    simp only [sitecounter, List.foldl_nil, List.getD_eq_getElem?_getD,
      List.getElem?_replicate, List.count_nil]
    split_ifs <;> rfl
  | append_singleton l a ih =>
    have hlen3 : l.length + 1 < 2147483648 := by
      simpa only [List.length_append, List.length_singleton] using hlen
    have hlen2 : l.length < 2147483648 := by omega
    have ih2 := ih hlen2
    have hcle : l.count t ≤ l.length := List.count_le_length t l
    rw [sitecounter_snoc, List.count_append, List.count_singleton]
    by_cases ha : 1 ≤ a
    · rw [if_pos ha]
      by_cases hat : a = t
      · subst hat
        have hk : (a - 1).toNat < (sitecounter n l).length := by
          rw [sitecounter_length]; omega
        rw [List.getD_eq_getElem?_getD, List.getElem?_set_self hk]
        simp only [Option.getD_some]
        rw [ih2, int_wrap_of_range _ (by omega) (by omega)]
        simp
      · have hk : (a - 1).toNat ≠ (t - 1).toNat := by omega
        rw [List.getD_eq_getElem?_getD, List.getElem?_set_ne hk,
          ← List.getD_eq_getElem?_getD, ih2]
        have : (a == t) = false := by simpa using hat
        simp [this]
    · rw [if_neg ha, ih2]
      have hat : a ≠ t := by omega
      have : (a == t) = false := by simpa using hat
      simp [this]

/-- The pair count and volume the code passes while the `int` product does not overflow:
`countA*countB` for distinct types, `countA*(countA-1)/2` for equal types, and `1`, `1` for
a PairBonded class. -/
theorem pair_count_in_range (n_cg_types : Nat) (cg_site_types : List Int) (A B : Int)
    (volume : ℚ) (hA1 : 1 ≤ A) (hA2 : A ≤ n_cg_types) (hB1 : 1 ≤ B) (hB2 : B ≤ n_cg_types)
    (hlen : cg_site_types.length < 2147483648)
    (hprod : cg_site_types.count A * cg_site_types.count B < 2147483648) :
    reader_arguments kPairNonbonded n_cg_types cg_site_types A B volume
      = (if A = B then
           ((cg_site_types.count A : ℚ) * ((cg_site_types.count A : ℚ) - 1)) / 2
         else (cg_site_types.count A : ℚ) * (cg_site_types.count B : ℚ),
         some volume) ∧
    reader_arguments kPairBonded n_cg_types cg_site_types A B volume = (1, some 1) := by
  refine ⟨?_, by simp [reader_arguments]⟩
  have hprodZ : ((cg_site_types.count A : Int) * (cg_site_types.count B : Int))
      < 2147483648 := by exact_mod_cast hprod
  have hnn : (0 : Int) ≤ (cg_site_types.count A : Int) * (cg_site_types.count B : Int) :=
    mul_nonneg (Int.natCast_nonneg _) (Int.natCast_nonneg _)
  simp only [reader_arguments, if_true, num_pairs]
  rw [sitecounter_count n_cg_types cg_site_types A hA1 hA2 hlen,
    sitecounter_count n_cg_types cg_site_types B hB1 hB2 hlen,
    int_wrap_of_range _ (by omega) hprodZ]
  by_cases hAB : A = B
  · subst hAB
    simp only [if_true]
    push_cast
    congr 1
    ring
  · simp only [if_neg hAB]
    push_cast
    rfl

theorem pair_count_in_range_witness :
    reader_arguments kPairNonbonded 2 [1, 1, 1, 2, 2, 1] 1 2 (27 : ℚ) = (8, some 27) ∧
    reader_arguments kPairNonbonded 2 [1, 1, 1, 2, 2, 1] 1 1 (27 : ℚ) = (6, some 27) := by
  obtain ⟨h1, _⟩ := pair_count_in_range 2 [1, 1, 1, 2, 2, 1] 1 2 27 (by decide) (by decide)
    (by decide) (by decide) (by decide) (by decide)
  obtain ⟨h2, _⟩ := pair_count_in_range 2 [1, 1, 1, 2, 2, 1] 1 1 27 (by decide) (by decide)
    (by decide) (by decide) (by decide) (by decide)
  refine ⟨?_, ?_⟩
  · rw [h1]; norm_num [List.count_cons]
  · rw [h2]; norm_num [List.count_cons]

/-- C6 at a failing input: with 46341 sites, all of type 1, the `int` product
`46341 * 46341` leaves the range of `int`; the pair count passed for the pair (1, 1) is
`-1073762678`, whereas `countA*(countA-1)/2` is `1073720970`. -/
theorem pair_count_overflow (volume : ℚ) :
    reader_arguments kPairNonbonded 1 (List.replicate 46341 1) 1 1 volume
      = (-1073762678, some volume) ∧
    (((List.replicate 46341 (1 : Int)).count 1 : ℚ)
      * (((List.replicate 46341 (1 : Int)).count 1 : ℚ) - 1)) / 2 = 1073720970 := by
  have hc : (sitecounter 1 (List.replicate 46341 1)).getD ((1 : Int) - 1).toNat 0
      = 46341 := by
    rw [sitecounter_count 1 (List.replicate 46341 1) 1 (by decide) (by decide)
      (by rw [List.length_replicate]; norm_num), List.count_replicate_self]
    rfl
  refine ⟨?_, ?_⟩
  · simp only [reader_arguments, if_true, num_pairs, hc]
    norm_num [int_wrap]
  · rw [List.count_replicate_self]
    norm_num

/-! ### Boltzmann inverter -/

theorem pair_bin_values_zero (log : ℚ → ℚ) (VERYLARGE : ℚ) (hVL : 100 ≤ VERYLARGE)
    (binwidth : ℚ) (mat : MATRIX_DATA) (num_of_pairs volume r : ℚ) (counts : Int)
    (hc : counts ≤ 0) :
    pair_bin_values log VERYLARGE binwidth mat num_of_pairs volume r counts
      = (Double.finite 0, Double.finite 100) := by
  have h1 : ¬ counts > 0 := not_lt.mpr hc
  have h2 : ((Double.finite 100).gt VERYLARGE || (Double.finite 100).lt (-VERYLARGE))
      = false := by
    simp only [Double.gt, Double.lt, Bool.or_eq_false_iff, decide_eq_false_iff_not, not_lt]
    exact ⟨hVL, by linarith⟩
  simp only [pair_bin_values, if_neg h1, h2, Bool.false_eq_true, if_false]

theorem other_bin_values_zero (log : ℚ → ℚ) (VERYLARGE : ℚ) (hVL : 100 ≤ VERYLARGE)
    (mat : MATRIX_DATA) (num_of_pairs : ℚ) (counts : Int) (hc : counts ≤ 0) :
    other_bin_values log VERYLARGE mat num_of_pairs counts
      = (Double.finite 0, Double.finite 100) := by
  have h1 : ¬ counts > 0 := not_lt.mpr hc
  have h2 : ((Double.finite 100).gt VERYLARGE || (Double.finite 100).lt (-VERYLARGE))
      = false := by
    simp only [Double.gt, Double.lt, Bool.or_eq_false_iff, decide_eq_false_iff_not, not_lt]
    exact ⟨hVL, by linarith⟩
  simp only [other_bin_values, if_neg h1, h2, Bool.false_eq_true, if_false]

theorem pair_loop_iterate (log : ℚ → ℚ) (VERYLARGE binwidth num_of_pairs volume : ℚ)
    (n : Nat) (st : ReadLoop) (hn : n ≤ st.file.length) :
    (Nat.iterate (pair_loop_body log VERYLARGE binwidth num_of_pairs volume) n st).mat.accumulated
      = st.mat.accumulated ++
        regression_rows
          (fun r c => (pair_bin_values log VERYLARGE binwidth st.mat num_of_pairs volume r c).2)
          st.counter (st.file.take n) ∧
    (Nat.iterate (pair_loop_body log VERYLARGE binwidth num_of_pairs volume) n st).rdf_rows
      = st.rdf_rows ++
        (st.file.take n).map
          (fun e => (e.1,
            (pair_bin_values log VERYLARGE binwidth st.mat num_of_pairs volume e.1 e.2).1)) ∧
    (Nat.iterate (pair_loop_body log VERYLARGE binwidth num_of_pairs volume) n st).counter
      = st.counter + n := by
  induction n generalizing st with
  | zero => simp [regression_rows]
  | succ n ih =>
    obtain ⟨file, r, counts, rdf_rows, mat, counter⟩ := st
    cases file with
    | nil => simp at hn
    | cons e rest =>
      obtain ⟨er, ec⟩ := e
      have hn2 : n ≤ rest.length := by simpa using hn
      have step : pair_loop_body log VERYLARGE binwidth num_of_pairs volume
          { file := (er, ec) :: rest, r := r, counts := counts, rdf_rows := rdf_rows,
            mat := mat, counter := counter }
          = { file := rest, r := er, counts := ec,
              rdf_rows := rdf_rows ++ [(er,
                (pair_bin_values log VERYLARGE binwidth mat num_of_pairs volume er ec).1)],
              mat := mat.accumulate counter er
                (pair_bin_values log VERYLARGE binwidth mat num_of_pairs volume er ec).2,
              counter := counter + 1 } := rfl
      have hvals : ∀ (c : Int) (a : ℚ) (b : Double),
          pair_bin_values log VERYLARGE binwidth (mat.accumulate c a b) num_of_pairs volume
            = pair_bin_values log VERYLARGE binwidth mat num_of_pairs volume := fun _ _ _ => rfl
      rw [Function.iterate_succ_apply, step]
      obtain ⟨i1, i2, i3⟩ := ih
        { file := rest, r := er, counts := ec,
          rdf_rows := rdf_rows ++ [(er,
            (pair_bin_values log VERYLARGE binwidth mat num_of_pairs volume er ec).1)],
          mat := mat.accumulate counter er
            (pair_bin_values log VERYLARGE binwidth mat num_of_pairs volume er ec).2,
          counter := counter + 1 } hn2
      simp only at i1 i2 i3
      rw [i1, i2, i3]
      simp only [hvals]
      simp only [MATRIX_DATA.accumulate, List.take_succ_cons, regression_rows,
        List.map_cons, List.append_assoc, List.singleton_append, Nat.cast_succ]
      refine ⟨trivial, trivial, ?_⟩
      ring

theorem other_loop_iterate (log : ℚ → ℚ) (VERYLARGE num_of_pairs : ℚ)
    (n : Nat) (st : ReadLoop) (hn : n ≤ st.file.length) :
    (Nat.iterate (other_loop_body log VERYLARGE num_of_pairs) n st).mat.accumulated
      = st.mat.accumulated ++
        regression_rows
          (fun _ c => (other_bin_values log VERYLARGE st.mat num_of_pairs c).2)
          st.counter (st.file.take n) ∧
    (Nat.iterate (other_loop_body log VERYLARGE num_of_pairs) n st).rdf_rows = st.rdf_rows ∧
    (Nat.iterate (other_loop_body log VERYLARGE num_of_pairs) n st).counter
      = st.counter + n := by
  induction n generalizing st with
  | zero => simp [regression_rows]
  | succ n ih =>
    obtain ⟨file, r, counts, rdf_rows, mat, counter⟩ := st
    cases file with
    | nil => simp at hn
    | cons e rest =>
      obtain ⟨er, ec⟩ := e
      have hn2 : n ≤ rest.length := by simpa using hn
      have step : other_loop_body log VERYLARGE num_of_pairs
          { file := (er, ec) :: rest, r := r, counts := counts, rdf_rows := rdf_rows,
            mat := mat, counter := counter }
          = { file := rest, r := er, counts := ec, rdf_rows := rdf_rows,
              mat := mat.accumulate counter er
                (other_bin_values log VERYLARGE mat num_of_pairs ec).2,
              counter := counter + 1 } := rfl
      have hvals : ∀ (c : Int) (a : ℚ) (b : Double),
          other_bin_values log VERYLARGE (mat.accumulate c a b) num_of_pairs
            = other_bin_values log VERYLARGE mat num_of_pairs := fun _ _ _ => rfl
      rw [Function.iterate_succ_apply, step]
      obtain ⟨i1, i2, i3⟩ := ih
        { file := rest, r := er, counts := ec, rdf_rows := rdf_rows,
          mat := mat.accumulate counter er
            (other_bin_values log VERYLARGE mat num_of_pairs ec).2,
          counter := counter + 1 } hn2
      simp only at i1 i2 i3
      rw [i1, i2, i3]
      simp only [hvals]
      simp only [MATRIX_DATA.accumulate, List.take_succ_cons, regression_rows,
        List.append_assoc, List.singleton_append, Nat.cast_succ]
      refine ⟨trivial, trivial, ?_⟩
      ring

theorem regression_rows_length (f : ℚ → Int → Double) (counter : Int) (l : List (ℚ × Int)) :
    (regression_rows f counter l).length = l.length := by
  induction l generalizing counter with
  | nil => rfl
  | cons e rest ih =>
    obtain ⟨r, c⟩ := e
    simp [regression_rows, ih]

theorem regression_rows_getElem? (f : ℚ → Int → Double) (counter : Int) (l : List (ℚ × Int))
    (k : Nat) (e : ℚ × Int) (hk : l[k]? = some e) :
    (regression_rows f counter l)[k]? = some (counter + k, e.1, f e.1 e.2) := by
  induction l generalizing counter k with
  | nil => simp at hk
  | cons e0 rest ih =>
    obtain ⟨r, c⟩ := e0
    cases k with
    | zero =>
      simp only [List.getElem?_cons_zero, Option.some.injEq] at hk
      subst hk
      simp [regression_rows]
    | succ k =>
      simp only [List.getElem?_cons_succ] at hk
      have := ih (counter + 1) k hk
      simp only [regression_rows, List.getElem?_cons_succ, this, Nat.cast_succ]
      congr 2
      ring

theorem regression_rows_mem (f : ℚ → Int → Double) (counter : Int) (l : List (ℚ × Int))
    (row : Int × ℚ × Double) (h : row ∈ regression_rows f counter l) :
    ∃ e ∈ l, row.2 = (e.1, f e.1 e.2) := by
  induction l generalizing counter with
  | nil => simp [regression_rows] at h
  | cons e0 rest ih =>
    obtain ⟨r, c⟩ := e0
    simp only [regression_rows, List.mem_cons] at h
    rcases h with h | h
    · exact ⟨(r, c), List.mem_cons_self _ _, by rw [h]⟩
    · obtain ⟨e, he, hrow⟩ := ih (counter + 1) h
      exact ⟨e, List.mem_cons_of_mem _ he, hrow⟩

theorem read_pair_ok (log : ℚ → ℚ) (VERYLARGE : ℚ) (icomp : InteractionClassComputer)
    (hist_file : List (ℚ × Int)) (mat : MATRIX_DATA) (idx : Nat) (counter : Int)
    (num_of_pairs volume r0 : ℚ) (counts0 : Int)
    (hs : icomp.ispec.upper_cutoffs idx ≠ -1)
    (h1 : 1 ≤ pair_num_entries icomp.ispec idx) :
    read_one_param_dist_file_pair log VERYLARGE icomp hist_file mat idx counter num_of_pairs
        volume r0 counts0
      = Except.ok
          { mat := (Nat.iterate
              (pair_loop_body log VERYLARGE icomp.ispec.fm_binwidth num_of_pairs volume)
              (pair_num_entries icomp.ispec idx).toNat
              { file := hist_file, r := r0, counts := counts0, rdf_rows := [], mat := mat,
                counter := counter }).mat
            counter := (Nat.iterate
              (pair_loop_body log VERYLARGE icomp.ispec.fm_binwidth num_of_pairs volume)
              (pair_num_entries icomp.ispec idx).toNat
              { file := hist_file, r := r0, counts := counts0, rdf_rows := [], mat := mat,
                counter := counter }).counter
            rdf_header := "# r gofr\n"
            rdf_rows := (Nat.iterate
              (pair_loop_body log VERYLARGE icomp.ispec.fm_binwidth num_of_pairs volume)
              (pair_num_entries icomp.ispec idx).toNat
              { file := hist_file, r := r0, counts := counts0, rdf_rows := [], mat := mat,
                counter := counter }).rdf_rows } := by
  have h2 : ¬ pair_num_entries icomp.ispec idx - 1 < 0 := by omega
  simp only [read_one_param_dist_file_pair, if_neg hs, if_neg h2]

theorem read_other_ok (log : ℚ → ℚ) (VERYLARGE : ℚ) (icomp : InteractionClassComputer)
    (hist_file : List (ℚ × Int)) (mat : MATRIX_DATA) (idx : Nat) (counter : Int)
    (num_of_pairs r0 : ℚ) (counts0 : Int)
    (hs : icomp.ispec.upper_cutoffs idx ≠ -1)
    (h1 : 1 ≤ other_num_entries icomp.ispec idx) :
    read_one_param_dist_file_other log VERYLARGE icomp hist_file mat idx counter num_of_pairs
        r0 counts0
      = Except.ok
          { mat := (Nat.iterate (other_loop_body log VERYLARGE num_of_pairs)
              (other_num_entries icomp.ispec idx).toNat
              { file := hist_file, r := r0, counts := counts0, rdf_rows := [], mat := mat,
                counter := counter }).mat
            counter := (Nat.iterate (other_loop_body log VERYLARGE num_of_pairs)
              (other_num_entries icomp.ispec idx).toNat
              { file := hist_file, r := r0, counts := counts0, rdf_rows := [], mat := mat,
                counter := counter }).counter
            rdf_header := "# r gofr\n"
            rdf_rows := (Nat.iterate (other_loop_body log VERYLARGE num_of_pairs)
              (other_num_entries icomp.ispec idx).toNat
              { file := hist_file, r := r0, counts := counts0, rdf_rows := [], mat := mat,
                counter := counter }).rdf_rows } := by
  have h2 : ¬ other_num_entries icomp.ispec idx - 1 < 0 := by omega
  simp only [read_one_param_dist_file_other, if_neg hs, if_neg h2]

/-- C7: in both readers a bin whose count is zero gets normalised density `0` and potential
`100` (the constant `VERYLARGE` being at least `100`), whatever the bin centre, bin width,
temperature, normalisation, volume and pair count; and the loop goes on: with enough
entries in the `.hist` file the reader returns, having accumulated one row per entry, the
row of a zero-count entry `k` being `(counter + k, r, 100)` (and its `.rdf` row `(r, 0)` in
the pair reader); `0` and `100` are the finite doubles of these values. -/
theorem zero_count_bin_sentinel (log : ℚ → ℚ) (VERYLARGE : ℚ) (hVL : 100 ≤ VERYLARGE)
    (icomp : InteractionClassComputer) (hist_file : List (ℚ × Int)) (mat : MATRIX_DATA)
    (idx : Nat) (counter : Int) (num_of_pairs volume r0 : ℚ) (counts0 : Int)
    (hs : icomp.ispec.upper_cutoffs idx ≠ -1) :
    (∀ binwidth r : ℚ,
      pair_bin_values log VERYLARGE binwidth mat num_of_pairs volume r 0
        = (Double.finite 0, Double.finite 100)) ∧
    other_bin_values log VERYLARGE mat num_of_pairs 0 = (Double.finite 0, Double.finite 100) ∧
    (1 ≤ pair_num_entries icomp.ispec idx →
      (pair_num_entries icomp.ispec idx).toNat ≤ hist_file.length →
      ∃ res, read_one_param_dist_file_pair log VERYLARGE icomp hist_file mat idx counter
          num_of_pairs volume r0 counts0 = Except.ok res ∧
        res.mat.accumulated.length
          = mat.accumulated.length + (pair_num_entries icomp.ispec idx).toNat ∧
        res.rdf_rows.length = (pair_num_entries icomp.ispec idx).toNat ∧
        ∀ (k : Nat) (r : ℚ), k < (pair_num_entries icomp.ispec idx).toNat →
          hist_file[k]? = some (r, 0) →
          res.mat.accumulated[mat.accumulated.length + k]?
            = some (counter + k, r, Double.finite 100) ∧
          res.rdf_rows[k]? = some (r, Double.finite 0)) ∧
    (1 ≤ other_num_entries icomp.ispec idx →
      (other_num_entries icomp.ispec idx).toNat ≤ hist_file.length →
      ∃ res, read_one_param_dist_file_other log VERYLARGE icomp hist_file mat idx counter
          num_of_pairs r0 counts0 = Except.ok res ∧
        res.mat.accumulated.length
          = mat.accumulated.length + (other_num_entries icomp.ispec idx).toNat ∧
        ∀ (k : Nat) (r : ℚ), k < (other_num_entries icomp.ispec idx).toNat →
          hist_file[k]? = some (r, 0) →
          res.mat.accumulated[mat.accumulated.length + k]?
            = some (counter + k, r, Double.finite 100)) := by
  refine ⟨fun bw r => pair_bin_values_zero log VERYLARGE hVL bw mat num_of_pairs volume r 0
      le_rfl,
    other_bin_values_zero log VERYLARGE hVL mat num_of_pairs 0 le_rfl, ?_, ?_⟩
  · intro h1 hlen
    refine ⟨_, read_pair_ok log VERYLARGE icomp hist_file mat idx counter num_of_pairs volume
      r0 counts0 hs h1, ?_⟩
    obtain ⟨a1, a2, _⟩ := pair_loop_iterate log VERYLARGE icomp.ispec.fm_binwidth num_of_pairs
      volume (pair_num_entries icomp.ispec idx).toNat
      { file := hist_file, r := r0, counts := counts0, rdf_rows := [], mat := mat,
        counter := counter } hlen
    simp only at a1 a2
    simp only [a1, a2, List.length_append, regression_rows_length, List.length_take,
      List.nil_append, List.length_map, min_eq_left hlen]
    refine ⟨trivial, trivial, ?_⟩
    intro k r hk hget
    have htake : (List.take (pair_num_entries icomp.ispec idx).toNat hist_file)[k]?
        = some (r, 0) := by
      rw [List.getElem?_take_of_lt hk]; exact hget
    refine ⟨?_, ?_⟩
    · rw [List.getElem?_append_right (Nat.le_add_right _ _), Nat.add_sub_cancel_left,
        regression_rows_getElem? _ _ _ k (r, 0) htake]
      simp only [pair_bin_values_zero log VERYLARGE hVL _ mat num_of_pairs volume r 0 le_rfl]
    · rw [List.getElem?_map, htake]
      simp only [Option.map_some', pair_bin_values_zero log VERYLARGE hVL _ mat num_of_pairs
        volume r 0 le_rfl]
  · intro h1 hlen
    refine ⟨_, read_other_ok log VERYLARGE icomp hist_file mat idx counter num_of_pairs
      r0 counts0 hs h1, ?_⟩
    obtain ⟨a1, _, _⟩ := other_loop_iterate log VERYLARGE num_of_pairs
      (other_num_entries icomp.ispec idx).toNat
      { file := hist_file, r := r0, counts := counts0, rdf_rows := [], mat := mat,
        counter := counter } hlen
    simp only at a1
    simp only [a1, List.length_append, regression_rows_length, List.length_take,
      min_eq_left hlen]
    refine ⟨trivial, ?_⟩
    intro k r hk hget
    have htake : (List.take (other_num_entries icomp.ispec idx).toNat hist_file)[k]?
        = some (r, 0) := by
      rw [List.getElem?_take_of_lt hk]; exact hget
    rw [List.getElem?_append_right (Nat.le_add_right _ _), Nat.add_sub_cancel_left,
      regression_rows_getElem? _ _ _ k (r, 0) htake]
    simp only [other_bin_values_zero log VERYLARGE hVL mat num_of_pairs 0 le_rfl]

theorem four_bin_range :
    range_over_binwidth four_bin_computer.ispec 0 = 2 ∧
    to_double (2 + 1 / 2) = 5 / 2 := by
  have eu : to_double (1 / 5) = 3602879701896397 / 18014398509481984 := by
    rw [to_double_of_bounds (1 / 5) (-3) 7205759403792794
      (by norm_num [abs_of_pos]) (by norm_num [abs_of_pos]) (by norm_num)
      (by norm_num [abs_lt])]
    norm_num
  have el : to_double (1 / 10) = 3602879701896397 / 36028797018963968 := by
    rw [to_double_of_bounds (1 / 10) (-4) 7205759403792794
      (by norm_num [abs_of_pos]) (by norm_num [abs_of_pos]) (by norm_num)
      (by norm_num [abs_lt])]
    norm_num
  have eb : to_double (1 / 20) = 3602879701896397 / 72057594037927936 := by
    rw [to_double_of_bounds (1 / 20) (-5) 7205759403792794
      (by norm_num [abs_of_pos]) (by norm_num [abs_of_pos]) (by norm_num)
      (by norm_num [abs_lt])]
    norm_num
  have ed : to_double
      (3602879701896397 / 18014398509481984
        - 3602879701896397 / 36028797018963968)
      = 3602879701896397 / 36028797018963968 := by
    rw [show (3602879701896397 / 18014398509481984
          - 3602879701896397 / 36028797018963968 : ℚ)
        = 3602879701896397 / 36028797018963968 by norm_num,
      to_double_of_bounds (3602879701896397 / 36028797018963968) (-4) 7205759403792794
        (by norm_num [abs_of_pos]) (by norm_num [abs_of_pos]) (by norm_num)
        (by norm_num [abs_lt])]
    norm_num
  have eq : to_double
      (3602879701896397 / 36028797018963968
        / (3602879701896397 / 72057594037927936))
      = 2 := by
    rw [show (3602879701896397 / 36028797018963968
          / (3602879701896397 / 72057594037927936) : ℚ)
        = 2 by norm_num,
      to_double_of_bounds 2 (1) 4503599627370496
        (by norm_num [abs_of_pos]) (by norm_num [abs_of_pos]) (by norm_num)
        (by norm_num [abs_lt])]
    norm_num
  have eh : to_double (2 + 1 / 2) = 5 / 2 := by
    rw [show (2 + 1 / 2 : ℚ) = 5 / 2 by norm_num,
      to_double_of_bounds (5 / 2) (1) 5629499534213120
        (by norm_num [abs_of_pos]) (by norm_num [abs_of_pos]) (by norm_num)
        (by norm_num [abs_lt])]
    norm_num
  exact ⟨range_over_binwidth_eval _ 0 _ _ _ _ _ eu el eb ed eq, eh⟩

theorem four_bin_entries :
    four_bin_computer.ispec.upper_cutoffs 0 ≠ -1 ∧
    pair_num_entries four_bin_computer.ispec 0 = 4 ∧
    other_num_entries four_bin_computer.ispec 0 = 4 := by
  obtain ⟨hr, hh⟩ := four_bin_range
  refine ⟨by norm_num [four_bin_computer], ?_, ?_⟩
  · simp only [pair_num_entries]
    rw [hr, hh, double_to_int_of_bounds _ 2 (by norm_num) (by norm_num) (by norm_num)]
    norm_num [int_wrap]
  · simp only [other_num_entries]
    rw [hr, double_to_int_of_bounds _ 2 (by norm_num) (by norm_num) (by norm_num)]
    norm_num [int_wrap]

theorem zero_count_bin_sentinel_witness :
    (100 : ℚ) ≤ 1000 ∧ four_bin_computer.ispec.upper_cutoffs 0 ≠ -1 ∧
    (∃ res, read_one_param_dist_file_pair (fun x => x) 1000 four_bin_computer example_hist
        example_matrix 0 0 50 27 0 0 = Except.ok res ∧
      res.mat.accumulated.length = 4 ∧
      res.mat.accumulated[1]? = some (1, 11 / 80, Double.finite 100) ∧
      res.rdf_rows[1]? = some (11 / 80, Double.finite 0)) ∧
    (∃ res, read_one_param_dist_file_other (fun x => x) 1000 four_bin_computer example_hist
        example_matrix 0 0 1 0 0 = Except.ok res ∧
      res.mat.accumulated.length = 4 ∧
      res.mat.accumulated[3]? = some (3, 15 / 80, Double.finite 100)) := by
  obtain ⟨hs, hp, ho⟩ := four_bin_entries
  refine ⟨by norm_num, hs, ?_, ?_⟩
  · obtain ⟨_, _, hpair, _⟩ := zero_count_bin_sentinel (fun x => x) 1000 (by norm_num)
      four_bin_computer example_hist example_matrix 0 0 50 27 0 0 hs
    rw [hp] at hpair
    obtain ⟨res, hres, hlen, _, hrows⟩ := hpair (by norm_num) (by simp [example_hist])
    have := hrows 1 (11 / 80) (by simp) (by simp [example_hist])
    refine ⟨res, hres, ?_, ?_, ?_⟩
    · simpa [example_matrix] using hlen
    · simpa [example_matrix] using this.1
    · exact this.2
  · obtain ⟨_, _, _, hother⟩ := zero_count_bin_sentinel (fun x => x) 1000 (by norm_num)
      four_bin_computer example_hist example_matrix 0 0 1 27 0 0 hs
    rw [ho] at hother
    obtain ⟨res, hres, hlen, hrows⟩ := hother (by norm_num) (by simp [example_hist])
    have := hrows 3 (15 / 80) (by simp) (by simp [example_hist])
    refine ⟨res, hres, ?_, ?_⟩
    · simpa [example_matrix] using hlen
    · simpa [example_matrix] using this

/-- C8: in the non-pair reader the potential of a bin is a function of its count and of
the temperature, Boltzmann constant, normalisation and pair count alone (the bin centre is
no argument of `other_bin_values`); so when every entry of the `.hist` file holds the same
count `c`, every row the reader accumulates carries the same potential. -/
theorem uniform_counts_constant_potential (log : ℚ → ℚ) (VERYLARGE : ℚ)
    (icomp : InteractionClassComputer) (hist_file : List (ℚ × Int)) (mat : MATRIX_DATA)
    (idx : Nat) (counter : Int) (num_of_pairs r0 : ℚ) (counts0 : Int) (c : Int)
    (hs : icomp.ispec.upper_cutoffs idx ≠ -1)
    (h1 : 1 ≤ other_num_entries icomp.ispec idx)
    (hlen : (other_num_entries icomp.ispec idx).toNat ≤ hist_file.length)
    (huniform : ∀ e ∈ hist_file, e.2 = c) :
    ∃ res added, read_one_param_dist_file_other log VERYLARGE icomp hist_file mat idx counter
        num_of_pairs r0 counts0 = Except.ok res ∧
      res.mat.accumulated = mat.accumulated ++ added ∧
      added.length = (other_num_entries icomp.ispec idx).toNat ∧
      ∀ row ∈ added, row.2.2 = (other_bin_values log VERYLARGE mat num_of_pairs c).2 := by
  obtain ⟨a1, _, _⟩ := other_loop_iterate log VERYLARGE num_of_pairs
    (other_num_entries icomp.ispec idx).toNat
    { file := hist_file, r := r0, counts := counts0, rdf_rows := [], mat := mat,
      counter := counter } hlen
  simp only at a1
  refine ⟨_, _, read_other_ok log VERYLARGE icomp hist_file mat idx counter num_of_pairs
    r0 counts0 hs h1, a1, ?_, ?_⟩
  · rw [regression_rows_length, List.length_take, min_eq_left hlen]
  · intro row hrow
    obtain ⟨e, he, hrow2⟩ := regression_rows_mem _ _ _ row hrow
    rw [hrow2]
    simp only [huniform e (List.mem_of_mem_take he)]

theorem uniform_counts_constant_potential_witness :
    four_bin_computer.ispec.upper_cutoffs 0 ≠ -1 ∧
    1 ≤ other_num_entries four_bin_computer.ispec 0 ∧
    (other_num_entries four_bin_computer.ispec 0).toNat ≤ uniform_hist.length ∧
    (∀ e ∈ uniform_hist, e.2 = 7) ∧
    ∃ res added, read_one_param_dist_file_other (fun x => x) 1000 four_bin_computer
        uniform_hist example_matrix 0 0 1 0 0 = Except.ok res ∧
      res.mat.accumulated = example_matrix.accumulated ++ added ∧
      added.length = (other_num_entries four_bin_computer.ispec 0).toNat ∧
      ∀ row ∈ added,
        row.2.2 = (other_bin_values (fun x => x) 1000 example_matrix 1 7).2 := by
  obtain ⟨hs, _, ho⟩ := four_bin_entries
  have h1 : 1 ≤ other_num_entries four_bin_computer.ispec 0 := by rw [ho]; norm_num
  have h2 : (other_num_entries four_bin_computer.ispec 0).toNat ≤ uniform_hist.length := by
    rw [ho]; simp [uniform_hist]
  have h3 : ∀ e ∈ uniform_hist, e.2 = 7 := by
    intro e he
    simp only [uniform_hist, List.mem_cons, List.mem_singleton, List.not_mem_nil,
      or_false] at he
    rcases he with h | h | h | h <;> rw [h]
  exact ⟨hs, h1, h2, h3,
    uniform_counts_constant_potential (fun x => x) 1000 four_bin_computer uniform_hist
      example_matrix 0 0 1 0 0 7 hs h1 h2 h3⟩

/-! ### Sampling dispatcher -/

theorem selected_evaluator_eq_spec (VERYLARGE : ℚ) (full_name : String)
    (iclass : InteractionClassSpec) (icomp : InteractionClassComputer) :
    selected_evaluator VERYLARGE full_name iclass icomp
      = spec_evaluator iclass.class_type iclass.class_subtype := by
  unfold selected_evaluator initialize_single_class_range_finding_temps spec_evaluator
    report_unrecognized_class_subtype
  cases hct : iclass.class_type <;> by_cases h0 : iclass.class_subtype = 0 <;>
    by_cases h1 : iclass.class_subtype = 1 <;>
    simp [hct, h0, h1, bind, Except.bind, pure, Except.pure,
      open_parameter_distribution_files_for_class] <;>
    split_ifs <;> rfl

theorem initialization_fails_iff (VERYLARGE : ℚ) (full_name : String)
    (iclass : InteractionClassSpec) (icomp : InteractionClassComputer) :
    (∃ msg, initialize_single_class_range_finding_temps VERYLARGE full_name iclass icomp
        = Except.error msg) ↔
      selected_evaluator VERYLARGE full_name iclass icomp = none := by
  unfold selected_evaluator
  cases h : initialize_single_class_range_finding_temps VERYLARGE full_name iclass icomp with
  | error msg => simp
  | ok c => simp

/-- C9: `initialize_single_class_range_finding_temps` selects the two-body distance
evaluator for PairNonbonded and PairBonded; for AngularBonded the angle evaluator at
subtype 0 and the distance evaluator at subtype 1; for DihedralBonded the dihedral
evaluator at subtype 0 and the distance evaluator at subtype 1; the no-op evaluator for
every other class kind; and it exits (with the diagnostic naming the class) exactly when the
class is AngularBonded or DihedralBonded with a subtype other than 0 and 1. -/
theorem evaluator_selection (VERYLARGE : ℚ) (full_name : String)
    (iclass : InteractionClassSpec) (icomp : InteractionClassComputer) :
    (iclass.class_type = kPairNonbonded ∨ iclass.class_type = kPairBonded →
      selected_evaluator VERYLARGE full_name iclass icomp
        = some Evaluator.calc_isotropic_two_body_sampling_range) ∧
    (iclass.class_type = kAngularBonded → iclass.class_subtype = 0 →
      selected_evaluator VERYLARGE full_name iclass icomp
        = some Evaluator.calc_angular_three_body_sampling_range) ∧
    (iclass.class_type = kAngularBonded → iclass.class_subtype = 1 →
      selected_evaluator VERYLARGE full_name iclass icomp
        = some Evaluator.calc_isotropic_two_body_sampling_range) ∧
    (iclass.class_type = kDihedralBonded → iclass.class_subtype = 0 →
      selected_evaluator VERYLARGE full_name iclass icomp
        = some Evaluator.calc_dihedral_four_body_interaction_sampling_range) ∧
    (iclass.class_type = kDihedralBonded → iclass.class_subtype = 1 →
      selected_evaluator VERYLARGE full_name iclass icomp
        = some Evaluator.calc_isotropic_two_body_sampling_range) ∧
    (iclass.class_type ≠ kPairNonbonded → iclass.class_type ≠ kPairBonded →
      iclass.class_type ≠ kAngularBonded → iclass.class_type ≠ kDihedralBonded →
      selected_evaluator VERYLARGE full_name iclass icomp = some Evaluator.calc_nothing) ∧
    ((∃ msg, initialize_single_class_range_finding_temps VERYLARGE full_name iclass icomp
        = Except.error msg) ↔
      (iclass.class_type = kAngularBonded ∨ iclass.class_type = kDihedralBonded) ∧
        iclass.class_subtype ≠ 0 ∧ iclass.class_subtype ≠ 1) ∧
    ((iclass.class_type = kAngularBonded ∨ iclass.class_type = kDihedralBonded) →
      iclass.class_subtype ≠ 0 → iclass.class_subtype ≠ 1 →
      initialize_single_class_range_finding_temps VERYLARGE full_name iclass icomp
        = Except.error ("Unrecognized " ++ full_name ++ " class subtype!\n")) ∧
    selected_evaluator VERYLARGE full_name iclass icomp
      = spec_evaluator iclass.class_type iclass.class_subtype := by
  have hsel := selected_evaluator_eq_spec VERYLARGE full_name iclass icomp
  refine ⟨?_, ?_, ?_, ?_, ?_, ?_, ?_, ?_, hsel⟩
  · rintro (h | h) <;> rw [hsel] <;> simp [spec_evaluator, h]
  · intro h h0; rw [hsel]; simp [spec_evaluator, h, h0]
  · intro h h1; rw [hsel]; simp [spec_evaluator, h, h1]
  · intro h h0; rw [hsel]; simp [spec_evaluator, h, h0]
  · intro h h1; rw [hsel]; simp [spec_evaluator, h, h1]
  · intro h1 h2 h3 h4
    rw [hsel]
    cases hct : iclass.class_type <;> simp_all [spec_evaluator]
  · rw [initialization_fails_iff, hsel]
    cases hct : iclass.class_type <;> by_cases h0 : iclass.class_subtype = 0 <;>
      by_cases h1 : iclass.class_subtype = 1 <;> simp [spec_evaluator, h0, h1]
  · intro hc h0 h1
    unfold initialize_single_class_range_finding_temps report_unrecognized_class_subtype
    rcases hc with hc | hc <;>
      simp [hc, h0, h1, bind, Except.bind]

theorem evaluator_selection_witness :
    selected_evaluator 1000 "dihedral" dihedral_class four_bin_computer
      = some Evaluator.calc_dihedral_four_body_interaction_sampling_range ∧
    selected_evaluator 1000 "dihedral" { dihedral_class with class_subtype := 1 }
        four_bin_computer
      = some Evaluator.calc_isotropic_two_body_sampling_range ∧
    initialize_single_class_range_finding_temps 1000 "dihedral"
        { dihedral_class with class_subtype := 2 } four_bin_computer
      = Except.error ("Unrecognized " ++ "dihedral" ++ " class subtype!\n") ∧
    selected_evaluator 1000 "pair" example_class four_bin_computer
      = some Evaluator.calc_isotropic_two_body_sampling_range :=
  ⟨(evaluator_selection 1000 "dihedral" dihedral_class four_bin_computer).2.2.2.1 rfl rfl,
   (evaluator_selection 1000 "dihedral" { dihedral_class with class_subtype := 1 }
      four_bin_computer).2.2.2.2.1 rfl rfl,
   (evaluator_selection 1000 "dihedral" { dihedral_class with class_subtype := 2 }
      four_bin_computer).2.2.2.2.2.2.2.1 (Or.inr rfl) (by decide) (by decide),
   (evaluator_selection 1000 "pair" example_class four_bin_computer).1 (Or.inl rfl)⟩

/-! ### Distribution recorder -/

theorem two_body_handles (c : InteractionClassComputer) (p : ℚ) :
    (calc_isotropic_two_body_sampling_range c p).ispec.output_range_file_handles =
      if (c.ispec.output_parameter_distribution = 1 ∨ c.ispec.output_parameter_distribution = 2)
          ∧ (c.ispec.class_type = kPairBonded ∨ c.ispec.class_type = kAngularBonded
            ∨ c.ispec.class_type = kDihedralBonded
            ∨ (c.ispec.class_type = kPairNonbonded ∧ p < c.ispec.cutoff)) then
        Function.update c.ispec.output_range_file_handles c.index_among_defined_intrxns
          (c.ispec.output_range_file_handles c.index_among_defined_intrxns ++ [p])
      else c.ispec.output_range_file_handles := by
  simp only [calc_isotropic_two_body_sampling_range, fprintf_param]
  by_cases hlo : c.ispec.lower_cutoffs c.index_among_defined_intrxns > p <;>
    by_cases hup : c.ispec.upper_cutoffs c.index_among_defined_intrxns < p <;>
    by_cases hm : (c.ispec.output_parameter_distribution = 1
      ∨ c.ispec.output_parameter_distribution = 2) <;>
    by_cases hb : (c.ispec.class_type = kPairBonded ∨ c.ispec.class_type = kAngularBonded
      ∨ c.ispec.class_type = kDihedralBonded) <;>
    by_cases hn : (c.ispec.class_type = kPairNonbonded ∧ p < c.ispec.cutoff) <;>
    simp only [hlo, hup, hm, hb, hn, if_true, if_false, true_and, false_and, or_false,
      true_or, or_true, false_or, or_assoc] <;>
    rfl

theorem angular_handles (c : InteractionClassComputer) (p : ℚ) :
    (calc_angular_three_body_sampling_range c p).ispec.output_range_file_handles =
      if c.ispec.output_parameter_distribution = 1 ∨ c.ispec.output_parameter_distribution = 2
      then
        Function.update c.ispec.output_range_file_handles c.index_among_defined_intrxns
          (c.ispec.output_range_file_handles c.index_among_defined_intrxns ++ [p])
      else c.ispec.output_range_file_handles := by
  simp only [calc_angular_three_body_sampling_range, fprintf_param]
  split_ifs <;> rfl

theorem dihedral_handles (c : InteractionClassComputer) (p : ℚ) :
    (calc_dihedral_four_body_interaction_sampling_range c p).ispec.output_range_file_handles =
      if c.ispec.output_parameter_distribution = 1 ∨ c.ispec.output_parameter_distribution = 2
      then
        Function.update c.ispec.output_range_file_handles c.index_among_defined_intrxns
          (c.ispec.output_range_file_handles c.index_among_defined_intrxns ++ [p])
      else c.ispec.output_range_file_handles := by
  simp only [calc_dihedral_four_body_interaction_sampling_range, fprintf_param]
  split_ifs <;> rfl

theorem recorded_handles (VERYLARGE : ℚ) (full_name : String)
    (icomp0 icomp : InteractionClassComputer) (param : ℚ)
    (hsel : selected_evaluator VERYLARGE full_name icomp.ispec icomp0
      = some icomp.calculate_fm_matrix_elements) :
    (spec_accepts icomp.ispec param →
      (icomp.calculate_fm_matrix_elements.fn icomp param).ispec.output_range_file_handles
        = Function.update icomp.ispec.output_range_file_handles
            icomp.index_among_defined_intrxns
            (icomp.ispec.output_range_file_handles icomp.index_among_defined_intrxns
              ++ [param])) ∧
    (¬ spec_accepts icomp.ispec param →
      (icomp.calculate_fm_matrix_elements.fn icomp param).ispec.output_range_file_handles
        = icomp.ispec.output_range_file_handles) := by
  rw [selected_evaluator_eq_spec] at hsel
  unfold spec_accepts
  cases hct : icomp.ispec.class_type <;> rw [hct] at hsel <;>
    simp only [spec_evaluator] at hsel
  · -- kPairNonbonded
    have hev := (Option.some.inj hsel).symm
    rw [hev]
    simp only [Evaluator.fn, two_body_handles, hct]
    constructor
    · intro h; rw [if_pos h]
    · intro h; rw [if_neg h]
  · -- kPairBonded
    have hev := (Option.some.inj hsel).symm
    rw [hev]
    simp only [Evaluator.fn, two_body_handles, hct]
    constructor
    · intro h; rw [if_pos h]
    · intro h; rw [if_neg h]
  · -- kAngularBonded
    split_ifs at hsel with h0 h1
    · have hev := (Option.some.inj hsel).symm
      rw [hev]
      simp only [Evaluator.fn, angular_handles]
      constructor
      · intro h; rw [if_pos h.1]
      · intro h
        have : ¬ (icomp.ispec.output_parameter_distribution = 1
            ∨ icomp.ispec.output_parameter_distribution = 2) := fun hm => h ⟨hm, by simp⟩
        rw [if_neg this]
    · have hev := (Option.some.inj hsel).symm
      rw [hev]
      simp only [Evaluator.fn, two_body_handles, hct]
      constructor
      · intro h; rw [if_pos h]
      · intro h; rw [if_neg h]
  · -- kDihedralBonded
    split_ifs at hsel with h0 h1
    · have hev := (Option.some.inj hsel).symm
      rw [hev]
      simp only [Evaluator.fn, dihedral_handles]
      constructor
      · intro h; rw [if_pos h.1]
      · intro h
        have : ¬ (icomp.ispec.output_parameter_distribution = 1
            ∨ icomp.ispec.output_parameter_distribution = 2) := fun hm => h ⟨hm, by simp⟩
        rw [if_neg this]
    · have hev := (Option.some.inj hsel).symm
      rw [hev]
      simp only [Evaluator.fn, two_body_handles, hct]
      constructor
      · intro h; rw [if_pos h]
      · intro h; rw [if_neg h]
  · -- kThreeBodyNonbonded
    have hev := (Option.some.inj hsel).symm
    rw [hev]
    simp [Evaluator.fn, calc_nothing]

/-- C10: for a computer whose evaluator is the one the initialisation selects for its
class, one call of the evaluator appends the sample value to the recording target of the
current interaction if and only if recording is on (mode 1 or 2, i.e. not off) and either
the class is PairBonded, AngularBonded or DihedralBonded, or it is PairNonbonded and the
value is strictly below the cutoff; otherwise no target changes.  A PairNonbonded sample at
or above the cutoff is not recorded but still tightens the range bounds. -/
theorem recording_acceptance (VERYLARGE : ℚ) (full_name : String)
    (icomp0 icomp : InteractionClassComputer) (param : ℚ)
    (hsel : selected_evaluator VERYLARGE full_name icomp.ispec icomp0
      = some icomp.calculate_fm_matrix_elements) :
    ((icomp.calculate_fm_matrix_elements.fn icomp param).ispec.output_range_file_handles
          icomp.index_among_defined_intrxns
        = icomp.ispec.output_range_file_handles icomp.index_among_defined_intrxns ++ [param]
      ↔ spec_accepts icomp.ispec param) ∧
    (¬ spec_accepts icomp.ispec param →
      (icomp.calculate_fm_matrix_elements.fn icomp param).ispec.output_range_file_handles
        = icomp.ispec.output_range_file_handles) ∧
    (∀ j, j ≠ icomp.index_among_defined_intrxns →
      (icomp.calculate_fm_matrix_elements.fn icomp param).ispec.output_range_file_handles j
        = icomp.ispec.output_range_file_handles j) ∧
    (icomp.ispec.class_type = kPairNonbonded → icomp.ispec.cutoff ≤ param →
      (icomp.calculate_fm_matrix_elements.fn icomp param).ispec.output_range_file_handles
        = icomp.ispec.output_range_file_handles ∧
      (icomp.calculate_fm_matrix_elements.fn icomp param).ispec.lower_cutoffs
          icomp.index_among_defined_intrxns
        = min (icomp.ispec.lower_cutoffs icomp.index_among_defined_intrxns) param ∧
      (icomp.calculate_fm_matrix_elements.fn icomp param).ispec.upper_cutoffs
          icomp.index_among_defined_intrxns
        = max (icomp.ispec.upper_cutoffs icomp.index_among_defined_intrxns) param) ∧
    (icomp.ispec.output_parameter_distribution = 0
        ∨ icomp.ispec.output_parameter_distribution = 1
        ∨ icomp.ispec.output_parameter_distribution = 2 →
      (spec_accepts icomp.ispec param ↔
        icomp.ispec.output_parameter_distribution ≠ 0 ∧
        (icomp.ispec.class_type = kPairBonded ∨ icomp.ispec.class_type = kAngularBonded
          ∨ icomp.ispec.class_type = kDihedralBonded
          ∨ (icomp.ispec.class_type = kPairNonbonded ∧ param < icomp.ispec.cutoff)))) := by
  obtain ⟨hyes, hno⟩ := recorded_handles VERYLARGE full_name icomp0 icomp param hsel
  refine ⟨⟨?_, ?_⟩, hno, ?_, ?_, ?_⟩
  · intro h
    by_contra hacc
    rw [hno hacc] at h
    have := congrArg List.length h
    simp at this
  · intro hacc
    rw [hyes hacc, Function.update_same]
  · intro j hj
    by_cases hacc : spec_accepts icomp.ispec param
    · rw [hyes hacc, Function.update_noteq hj]
    · rw [hno hacc]
  · intro hct hcut
    have hacc : ¬ spec_accepts icomp.ispec param := by
      unfold spec_accepts
      rw [hct]
      intro h
      rcases h.2 with h | h | h | h
      · exact absurd h (by decide)
      · exact absurd h (by decide)
      · exact absurd h (by decide)
      · exact absurd h.2 (not_lt.mpr hcut)
    refine ⟨hno hacc, ?_⟩
    have hev : icomp.calculate_fm_matrix_elements
        = Evaluator.calc_isotropic_two_body_sampling_range := by
      rw [selected_evaluator_eq_spec, hct] at hsel
      exact (Option.some.inj hsel).symm
    rw [hev]
    exact ⟨(two_body_tightens icomp param).2.1, (two_body_tightens icomp param).2.2⟩
  · intro hmode
    unfold spec_accepts
    constructor
    · rintro ⟨hm, hc⟩
      exact ⟨by omega, hc⟩
    · rintro ⟨hm, hc⟩
      exact ⟨by omega, hc⟩

theorem recording_acceptance_witness :
    selected_evaluator 1000 "pair" four_bin_computer.ispec four_bin_computer
      = some four_bin_computer.calculate_fm_matrix_elements ∧
    four_bin_computer.ispec.class_type = kPairNonbonded ∧
    four_bin_computer.ispec.cutoff ≤ 3 / 2 ∧
    (four_bin_computer.calculate_fm_matrix_elements.fn four_bin_computer
        (3 / 2)).ispec.output_range_file_handles
      = four_bin_computer.ispec.output_range_file_handles ∧
    (four_bin_computer.calculate_fm_matrix_elements.fn four_bin_computer
        (3 / 2)).ispec.lower_cutoffs four_bin_computer.index_among_defined_intrxns
      = min (four_bin_computer.ispec.lower_cutoffs
          four_bin_computer.index_among_defined_intrxns) (3 / 2) ∧
    (four_bin_computer.calculate_fm_matrix_elements.fn four_bin_computer
        (3 / 2)).ispec.upper_cutoffs four_bin_computer.index_among_defined_intrxns
      = max (four_bin_computer.ispec.upper_cutoffs
          four_bin_computer.index_among_defined_intrxns) (3 / 2) := by
  have hsel : selected_evaluator 1000 "pair" four_bin_computer.ispec four_bin_computer
      = some four_bin_computer.calculate_fm_matrix_elements := by
    rw [selected_evaluator_eq_spec]; rfl
  have hcut : four_bin_computer.ispec.cutoff ≤ 3 / 2 := by
    norm_num [four_bin_computer, example_class]
  exact ⟨hsel, rfl, hcut,
    (recording_acceptance 1000 "pair" four_bin_computer four_bin_computer (3 / 2)
      hsel).2.2.2.1 rfl hcut⟩

/-! ### The clamp -/

theorem pair_bin_values_clamp (log : ℚ → ℚ) (VERYLARGE binwidth : ℚ) (mat : MATRIX_DATA)
    (num_of_pairs volume r : ℚ) (counts : Int) :
    (pair_bin_values log VERYLARGE binwidth mat num_of_pairs volume r counts).2
      = clamp_potential VERYLARGE
          (pair_potential log binwidth mat num_of_pairs volume r counts) := by
  unfold pair_bin_values pair_potential clamp_potential
  by_cases h : counts > 0 <;> simp only [h, if_true, if_false]

theorem other_bin_values_clamp (log : ℚ → ℚ) (VERYLARGE : ℚ) (mat : MATRIX_DATA)
    (num_of_pairs : ℚ) (counts : Int) :
    (other_bin_values log VERYLARGE mat num_of_pairs counts).2
      = clamp_potential VERYLARGE (other_potential log mat num_of_pairs counts) := by
  unfold other_bin_values other_potential clamp_potential
  by_cases h : counts > 0 <;> simp only [h, if_true, if_false]

/-- The clamp case by case: a finite potential within `[-VERYLARGE, VERYLARGE]` is kept, a
finite potential outside and both infinities become `VERYLARGE`, and NaN stays NaN, both
comparisons being false on it. -/
theorem clamp_potential_cases (VERYLARGE : ℚ) (p : ℚ) :
    (-VERYLARGE ≤ p ∧ p ≤ VERYLARGE →
      clamp_potential VERYLARGE (Double.finite p) = Double.finite p) ∧
    (p > VERYLARGE ∨ p < -VERYLARGE →
      clamp_potential VERYLARGE (Double.finite p) = Double.finite VERYLARGE) ∧
    clamp_potential VERYLARGE Double.pos_inf = Double.finite VERYLARGE ∧
    clamp_potential VERYLARGE Double.neg_inf = Double.finite VERYLARGE ∧
    clamp_potential VERYLARGE Double.nan = Double.nan := by
  refine ⟨?_, ?_, rfl, rfl, rfl⟩
  · rintro ⟨h1, h2⟩
    have h : ((Double.finite p).gt VERYLARGE || (Double.finite p).lt (-VERYLARGE)) = false := by
      simp only [Double.gt, Double.lt, Bool.or_eq_false_iff, decide_eq_false_iff_not, not_lt]
      exact ⟨h2, h1⟩
    simp only [clamp_potential, h, Bool.false_eq_true, if_false]
  · intro h
    have h : ((Double.finite p).gt VERYLARGE || (Double.finite p).lt (-VERYLARGE)) = true := by
      simp only [Double.gt, Double.lt, Bool.or_eq_true, decide_eq_true_eq]
      exact h
    simp only [clamp_potential, h, if_true]

theorem fscanf_mat (st : ReadLoop) : st.fscanf.mat = st.mat ∧
    st.fscanf.rdf_rows = st.rdf_rows ∧ st.fscanf.counter = st.counter := by
  unfold ReadLoop.fscanf
  cases h : st.file with
  | nil => exact ⟨rfl, rfl, rfl⟩
  | cons e rest =>
    obtain ⟨r, c⟩ := e
    exact ⟨rfl, rfl, rfl⟩

theorem pair_loop_body_rows (log : ℚ → ℚ) (VERYLARGE binwidth num_of_pairs volume : ℚ)
    (st : ReadLoop) :
    ∃ (r : ℚ) (c : Int) (d : Double),
      (pair_loop_body log VERYLARGE binwidth num_of_pairs volume st).mat
        = st.mat.accumulate st.counter r
            (pair_bin_values log VERYLARGE binwidth st.mat num_of_pairs volume r c).2 ∧
      (pair_loop_body log VERYLARGE binwidth num_of_pairs volume st).rdf_rows
        = st.rdf_rows ++ [(r, d)] ∧
      (pair_loop_body log VERYLARGE binwidth num_of_pairs volume st).counter
        = st.counter + 1 := by
  obtain ⟨h1, h2, h3⟩ := fscanf_mat st
  refine ⟨st.fscanf.r, st.fscanf.counts,
    (pair_bin_values log VERYLARGE binwidth st.fscanf.mat num_of_pairs volume st.fscanf.r
      st.fscanf.counts).1, ?_, ?_, ?_⟩
  · simp only [pair_loop_body, h1, h3]
  · simp only [pair_loop_body, h2]
  · simp only [pair_loop_body, h3]

theorem other_loop_body_rows (log : ℚ → ℚ) (VERYLARGE num_of_pairs : ℚ) (st : ReadLoop) :
    ∃ (r : ℚ) (c : Int),
      (other_loop_body log VERYLARGE num_of_pairs st).mat
        = st.mat.accumulate st.counter r
            (other_bin_values log VERYLARGE st.mat num_of_pairs c).2 ∧
      (other_loop_body log VERYLARGE num_of_pairs st).rdf_rows = st.rdf_rows ∧
      (other_loop_body log VERYLARGE num_of_pairs st).counter = st.counter + 1 := by
  obtain ⟨h1, h2, h3⟩ := fscanf_mat st
  refine ⟨st.fscanf.r, st.fscanf.counts, ?_, ?_, ?_⟩
  · simp only [other_loop_body, h1, h3]
  · simp only [other_loop_body, h2]
  · simp only [other_loop_body, h3]

/-- Whatever the `.hist` file holds, `n` passes of the pair loop add `n` regression rows and
`n` rows of the `.rdf` file, and every regression row added carries a clamped potential. -/
theorem pair_loop_rows (log : ℚ → ℚ) (VERYLARGE binwidth num_of_pairs volume : ℚ)
    (n : Nat) (st : ReadLoop) :
    (Nat.iterate (pair_loop_body log VERYLARGE binwidth num_of_pairs volume) n
        st).mat.accumulated.length = st.mat.accumulated.length + n ∧
    (Nat.iterate (pair_loop_body log VERYLARGE binwidth num_of_pairs volume) n
        st).rdf_rows.length = st.rdf_rows.length + n ∧
    ∀ row ∈ (Nat.iterate (pair_loop_body log VERYLARGE binwidth num_of_pairs volume) n
        st).mat.accumulated,
      row ∈ st.mat.accumulated ∨
      ∃ (r : ℚ) (c : Int), row.2.2
        = (pair_bin_values log VERYLARGE binwidth st.mat num_of_pairs volume r c).2 := by
  induction n generalizing st with
  | zero =>
    refine ⟨rfl, rfl, ?_⟩
    intro row hrow
    exact Or.inl hrow
  | succ n ih =>
    obtain ⟨r, c, d, hm, hr, _⟩ :=
      pair_loop_body_rows log VERYLARGE binwidth num_of_pairs volume st
    obtain ⟨i1, i2, i3⟩ := ih (pair_loop_body log VERYLARGE binwidth num_of_pairs volume st)
    rw [Function.iterate_succ_apply]
    refine ⟨?_, ?_, ?_⟩
    · rw [i1, hm]
      simp only [MATRIX_DATA.accumulate, List.length_append, List.length_singleton]
      omega
    · rw [i2, hr]
      simp only [List.length_append, List.length_singleton]
      omega
    · intro row hrow
      rcases i3 row hrow with h | ⟨r2, c2, h⟩
      · rw [hm] at h
        simp only [MATRIX_DATA.accumulate, List.mem_append, List.mem_singleton] at h
        rcases h with h | h
        · exact Or.inl h
        · exact Or.inr ⟨r, c, by rw [h]⟩
      · refine Or.inr ⟨r2, c2, ?_⟩
        rw [h, hm]
        rfl

/-- Whatever the `.hist` file holds, `n` passes of the non-pair loop add `n` regression
rows, leave the `.rdf` file as it is, and every regression row added carries a clamped
potential. -/
theorem other_loop_rows (log : ℚ → ℚ) (VERYLARGE num_of_pairs : ℚ) (n : Nat)
    (st : ReadLoop) :
    (Nat.iterate (other_loop_body log VERYLARGE num_of_pairs) n st).mat.accumulated.length
      = st.mat.accumulated.length + n ∧
    (Nat.iterate (other_loop_body log VERYLARGE num_of_pairs) n st).rdf_rows = st.rdf_rows ∧
    ∀ row ∈ (Nat.iterate (other_loop_body log VERYLARGE num_of_pairs) n st).mat.accumulated,
      row ∈ st.mat.accumulated ∨
      ∃ c : Int, row.2.2 = (other_bin_values log VERYLARGE st.mat num_of_pairs c).2 := by
  induction n generalizing st with
  | zero =>
    refine ⟨rfl, rfl, ?_⟩
    intro row hrow
    exact Or.inl hrow
  | succ n ih =>
    obtain ⟨r, c, hm, hr, _⟩ := other_loop_body_rows log VERYLARGE num_of_pairs st
    obtain ⟨i1, i2, i3⟩ := ih (other_loop_body log VERYLARGE num_of_pairs st)
    rw [Function.iterate_succ_apply]
    refine ⟨?_, ?_, ?_⟩
    · rw [i1, hm]
      simp only [MATRIX_DATA.accumulate, List.length_append, List.length_singleton]
      omega
    · rw [i2, hr]
    · intro row hrow
      rcases i3 row hrow with h | ⟨c2, h⟩
      · rw [hm] at h
        simp only [MATRIX_DATA.accumulate, List.mem_append, List.mem_singleton] at h
        rcases h with h | h
        · exact Or.inl h
        · exact Or.inr ⟨c, by rw [h]⟩
      · refine Or.inr ⟨c2, ?_⟩
        rw [h, hm]
        rfl

theorem read_pair_rows (log : ℚ → ℚ) (VERYLARGE : ℚ) (icomp : InteractionClassComputer)
    (hist_file : List (ℚ × Int)) (mat : MATRIX_DATA) (idx : Nat) (counter : Int)
    (num_of_pairs volume r0 : ℚ) (counts0 : Int)
    (hs : icomp.ispec.upper_cutoffs idx ≠ -1)
    (h1 : 1 ≤ pair_num_entries icomp.ispec idx)
    (hlen : (pair_num_entries icomp.ispec idx).toNat ≤ hist_file.length) :
    ∃ res, read_one_param_dist_file_pair log VERYLARGE icomp hist_file mat idx counter
        num_of_pairs volume r0 counts0 = Except.ok res ∧
      res.mat.accumulated = mat.accumulated ++
        regression_rows
          (fun r c => (pair_bin_values log VERYLARGE icomp.ispec.fm_binwidth mat num_of_pairs
            volume r c).2)
          counter (hist_file.take (pair_num_entries icomp.ispec idx).toNat) := by
  obtain ⟨a1, _, _⟩ := pair_loop_iterate log VERYLARGE icomp.ispec.fm_binwidth num_of_pairs
    volume (pair_num_entries icomp.ispec idx).toNat
    { file := hist_file, r := r0, counts := counts0, rdf_rows := [], mat := mat,
      counter := counter } hlen
  exact ⟨_, read_pair_ok log VERYLARGE icomp hist_file mat idx counter num_of_pairs volume
    r0 counts0 hs h1, a1⟩

theorem build_matrix_single_pair (log : ℚ → ℚ) (VERYLARGE : ℚ) (mat : MATRIX_DATA)
    (icomp : InteractionClassComputer) (volume : ℚ) (n_cg_types : Nat)
    (cg_site_types : List Int) (get_interaction_types : Nat → Int × Int)
    (hist_files : Nat → List (ℚ × Int)) (r0 : ℚ) (counts0 : Int) (np vol : ℚ)
    (res : ReadResult)
    (hnd : icomp.ispec.n_defined.toNat = 1)
    (hargs : reader_arguments icomp.ispec.class_type n_cg_types cg_site_types
      (get_interaction_types 0).1 (get_interaction_types 0).2 volume = (np, some vol))
    (hres : read_one_param_dist_file_pair log VERYLARGE
      { icomp with index_among_defined_intrxns := 0 } (hist_files 0) mat 0 0 np vol r0 counts0
      = Except.ok res) :
    read_interaction_file_and_build_matrix log VERYLARGE mat icomp volume n_cg_types
        cg_site_types get_interaction_types hist_files r0 counts0
      = Except.ok (res.mat, [res.rdf_rows]) := by
  have hr : List.range 1 = [0] := rfl
  simp only [read_interaction_file_and_build_matrix, hnd, hr, List.foldlM_cons,
    List.foldlM_nil, hargs, hres, bind, Except.bind, pure, Except.pure, Except.map,
    List.nil_append]

theorem overflow_reader_arguments (volume : ℚ) :
    reader_arguments kPairNonbonded 1 (List.replicate 46341 1) 1 1 volume
      = (-1073762678, some volume) := by
  have hc : (sitecounter 1 (List.replicate 46341 1)).getD ((1 : Int) - 1).toNat 0
      = 46341 := by
    rw [sitecounter_count 1 (List.replicate 46341 1) 1 (by decide) (by decide)
      (by rw [List.length_replicate]; norm_num), List.count_replicate_self]
    rfl
  simp only [reader_arguments, if_true, num_pairs, hc]
  norm_num [int_wrap]

theorem negative_pair_count_potential (log : ℚ → ℚ) :
    pair_potential log (1 / 20) example_matrix (-1073762678) 27 (9 / 80) 2 = Double.nan := by
  norm_num [pair_potential, double_div, Double.mul, Double.log, PI, example_matrix]

/-- C13 at a failing input: a PairNonbonded interaction between sites of one type, 46341 of
them, so that the pair count handed to the reader is `-1073762678`, and a bin at `r = 0.1125`
with count 2 (bin width `0.05`, volume 27, normalisation 1).  The normalised density is
negative, its logarithm is NaN, and so is the potential; both comparisons of the clamp are
false on NaN, so NaN is what the accumulator receives as the target of row 0: the value
handed over is neither the potential within `[-VERYLARGE, VERYLARGE]` nor `VERYLARGE`. -/
theorem nan_potential_passes_clamp (log : ℚ → ℚ) (VERYLARGE : ℚ) :
    pair_potential log (1 / 20) example_matrix (-1073762678) 27 (9 / 80) 2 = Double.nan ∧
    (pair_bin_values log VERYLARGE (1 / 20) example_matrix (-1073762678) 27 (9 / 80) 2).2
      = Double.nan ∧
    ∃ mat rdf, read_interaction_file_and_build_matrix log VERYLARGE example_matrix
        four_bin_computer 27 1 (List.replicate 46341 1) (fun _ => (1, 1))
        (fun _ => example_hist) 0 0 = Except.ok (mat, rdf) ∧
      mat.accumulated.length = 4 ∧
      mat.accumulated[0]? = some (0, 9 / 80, Double.nan) := by
  have hnan : (pair_bin_values log VERYLARGE (1 / 20) example_matrix (-1073762678) 27
      (9 / 80) 2).2 = Double.nan := by
    rw [pair_bin_values_clamp, negative_pair_count_potential]
    rfl
  obtain ⟨hs, hp, _⟩ := four_bin_entries
  obtain ⟨res, hres, hacc⟩ := read_pair_rows log VERYLARGE four_bin_computer example_hist
    example_matrix 0 0 (-1073762678) 27 0 0 hs (by rw [hp]; norm_num)
    (by rw [hp]; simp [example_hist])
  have hempty : example_matrix.accumulated = [] := rfl
  rw [hp, hempty, List.nil_append] at hacc
  refine ⟨negative_pair_count_potential log, hnan, res.mat, [res.rdf_rows], ?_, ?_, ?_⟩
  · exact build_matrix_single_pair log VERYLARGE example_matrix four_bin_computer 27 1
      (List.replicate 46341 1) (fun _ => (1, 1)) (fun _ => example_hist) 0 0 (-1073762678) 27
      res rfl (overflow_reader_arguments 27) hres
  · rw [hacc, regression_rows_length]
    simp [example_hist]
  · have hget : (List.take (4 : Int).toNat example_hist)[0]? = some (9 / 80, 2) := by
      simp [example_hist]
    have hbw : four_bin_computer.ispec.fm_binwidth = 1 / 20 := rfl
    rw [hacc, regression_rows_getElem? _ _ _ 0 (9 / 80, 2) hget]
    simp only [hbw, hnan, Nat.cast_zero, add_zero]

/-! ### Bin and entry counts of an example class -/

theorem single_value_range :
    range_over_binwidth single_value_class 0 = 0 ∧
    to_double (0 + 1 / 2) = 1 / 2 := by
  have eu : to_double (3 / 2) = 3 / 2 := by
    rw [to_double_of_bounds (3 / 2) (0) 6755399441055744
      (by norm_num [abs_of_pos]) (by norm_num [abs_of_pos]) (by norm_num)
      (by norm_num [abs_lt])]
    norm_num
  have el : to_double (3 / 2) = 3 / 2 := by
    rw [to_double_of_bounds (3 / 2) (0) 6755399441055744
      (by norm_num [abs_of_pos]) (by norm_num [abs_of_pos]) (by norm_num)
      (by norm_num [abs_lt])]
    norm_num
  have eb : to_double (1 / 20) = 3602879701896397 / 72057594037927936 := by
    rw [to_double_of_bounds (1 / 20) (-5) 7205759403792794
      (by norm_num [abs_of_pos]) (by norm_num [abs_of_pos]) (by norm_num)
      (by norm_num [abs_lt])]
    norm_num
  have ed : to_double (3 / 2 - 3 / 2) = 0 := by
    rw [show (3 / 2 - 3 / 2 : ℚ) = 0 by norm_num]
    exact to_double_zero
  have eq : to_double (0 / (3602879701896397 / 72057594037927936)) = 0 := by
    rw [show (0 / (3602879701896397 / 72057594037927936) : ℚ) = 0 by norm_num]
    exact to_double_zero
  have eh : to_double (0 + 1 / 2) = 1 / 2 := by
    rw [show (0 + 1 / 2 : ℚ) = 1 / 2 by norm_num,
      to_double_of_bounds (1 / 2) (-1) 4503599627370496
        (by norm_num [abs_of_pos]) (by norm_num [abs_of_pos]) (by norm_num)
        (by norm_num [abs_lt])]
    norm_num
  exact ⟨range_over_binwidth_eval _ 0 _ _ _ _ _ eu el eb ed eq, eh⟩

/-- C15 at a failing input: a sampled interaction observed at the single value `1.5`
(`lower = upper = 1.5`, bin width `0.05`, no basis adjustment) gets `num_bins = 0`, and the
statement `bin_centers[0] = ...` then writes outside the zero-length array. -/
theorem single_value_no_bins (VERYSMALL_F : ℚ) (dist_file : List ℚ) :
    single_value_class.upper_cutoffs 0 ≠ -1 ∧
    single_value_class.lower_cutoffs 0 ≤ single_value_class.upper_cutoffs 0 ∧
    0 < single_value_class.fm_binwidth ∧
    (generate_parameter_distribution_histogram_num_bins (fun s _ => s) single_value_class
        0).2 = 0 ∧
    generate_parameter_distribution_histogram_at VERYSMALL_F (fun s _ => s) single_value_class
        0 dist_file
      = Except.error "bin_centers[0]: write outside the array" := by
  have hs : single_value_class.upper_cutoffs 0 ≠ -1 := by norm_num [single_value_class]
  have hn : (generate_parameter_distribution_histogram_num_bins (fun s _ => s)
      single_value_class 0).2 = 0 := by
    rw [num_bins_of_range (fun s _ => s) single_value_class 0 0 (1 / 2) 0 hs
      single_value_range.1 single_value_range.2
      (double_to_int_of_bounds _ _ (by norm_num) (by norm_num) (by norm_num))]
    norm_num [int_wrap]
  refine ⟨hs, by norm_num [single_value_class], by norm_num [single_value_class], hn, ?_⟩
  simp only [generate_parameter_distribution_histogram_at, hn]
  rfl

/-! ### Distribution rows -/

/-- What each reader writes for a sampled interaction with at least one entry to take: both
return and add `num_entries` regression rows; the pair reader writes as many rows to the
`.rdf` file, the non-pair reader none. -/
theorem distribution_rows_per_reader (log : ℚ → ℚ) (VERYLARGE : ℚ)
    (icomp : InteractionClassComputer) (hist_file : List (ℚ × Int)) (mat : MATRIX_DATA)
    (idx : Nat) (counter : Int) (num_of_pairs volume r0 : ℚ) (counts0 : Int)
    (hs : icomp.ispec.upper_cutoffs idx ≠ -1) :
    (1 ≤ pair_num_entries icomp.ispec idx →
      ∃ res, read_one_param_dist_file_pair log VERYLARGE icomp hist_file mat idx counter
          num_of_pairs volume r0 counts0 = Except.ok res ∧
        res.mat.accumulated.length
          = mat.accumulated.length + (pair_num_entries icomp.ispec idx).toNat ∧
        res.rdf_rows.length = (pair_num_entries icomp.ispec idx).toNat) ∧
    (1 ≤ other_num_entries icomp.ispec idx →
      ∃ res, read_one_param_dist_file_other log VERYLARGE icomp hist_file mat idx counter
          num_of_pairs r0 counts0 = Except.ok res ∧
        res.mat.accumulated.length
          = mat.accumulated.length + (other_num_entries icomp.ispec idx).toNat ∧
        res.rdf_rows = []) := by
  constructor
  · intro h1
    refine ⟨_, read_pair_ok log VERYLARGE icomp hist_file mat idx counter num_of_pairs volume
      r0 counts0 hs h1, ?_, ?_⟩
    · exact (pair_loop_rows log VERYLARGE icomp.ispec.fm_binwidth num_of_pairs volume _ _).1
    · have := (pair_loop_rows log VERYLARGE icomp.ispec.fm_binwidth num_of_pairs volume
        (pair_num_entries icomp.ispec idx).toNat
        { file := hist_file, r := r0, counts := counts0, rdf_rows := [], mat := mat,
          counter := counter }).2.1
      simpa using this
  · intro h1
    refine ⟨_, read_other_ok log VERYLARGE icomp hist_file mat idx counter num_of_pairs
      r0 counts0 hs h1, ?_, ?_⟩
    · exact (other_loop_rows log VERYLARGE num_of_pairs _ _).1
    · exact (other_loop_rows log VERYLARGE num_of_pairs _ _).2.1

theorem angular_entries :
    angular_computer.ispec.upper_cutoffs 0 ≠ -1 ∧
    other_num_entries angular_computer.ispec 0 = 4 := by
  refine ⟨by norm_num [angular_computer, four_bin_computer], ?_⟩
  have hr : range_over_binwidth angular_computer.ispec 0
      = range_over_binwidth four_bin_computer.ispec 0 := by
    unfold range_over_binwidth
    rfl
  simp only [other_num_entries]
  rw [hr, four_bin_range.1, double_to_int_of_bounds _ 2 (by norm_num) (by norm_num)
    (by norm_num)]
  norm_num [int_wrap]

theorem distribution_rows_per_reader_witness :
    angular_computer.ispec.upper_cutoffs 0 ≠ -1 ∧
    1 ≤ other_num_entries angular_computer.ispec 0 ∧
    ∃ res, read_one_param_dist_file_other (fun x => x) 1000 angular_computer example_hist
        example_matrix 0 0 1 0 0 = Except.ok res ∧
      res.mat.accumulated.length
        = example_matrix.accumulated.length
          + (other_num_entries angular_computer.ispec 0).toNat ∧
      res.rdf_rows = [] := by
  obtain ⟨hs, hn⟩ := angular_entries
  have h1 : 1 ≤ other_num_entries angular_computer.ispec 0 := by rw [hn]; norm_num
  exact ⟨hs, h1,
    (distribution_rows_per_reader (fun x => x) 1000 angular_computer example_hist
      example_matrix 0 0 1 1 0 0 hs).2 h1⟩

theorem build_matrix_single_other (log : ℚ → ℚ) (VERYLARGE : ℚ) (mat : MATRIX_DATA)
    (icomp : InteractionClassComputer) (volume : ℚ) (n_cg_types : Nat)
    (cg_site_types : List Int) (get_interaction_types : Nat → Int × Int)
    (hist_files : Nat → List (ℚ × Int)) (r0 : ℚ) (counts0 : Int) (np : ℚ)
    (res : ReadResult)
    (hnd : icomp.ispec.n_defined.toNat = 1)
    (hargs : reader_arguments icomp.ispec.class_type n_cg_types cg_site_types
      (get_interaction_types 0).1 (get_interaction_types 0).2 volume = (np, none))
    (hres : read_one_param_dist_file_other log VERYLARGE
      { icomp with index_among_defined_intrxns := 0 } (hist_files 0) mat 0 0 np r0 counts0
      = Except.ok res) :
    read_interaction_file_and_build_matrix log VERYLARGE mat icomp volume n_cg_types
        cg_site_types get_interaction_types hist_files r0 counts0
      = Except.ok (res.mat, [res.rdf_rows]) := by
  have hr : List.range 1 = [0] := rfl
  simp only [read_interaction_file_and_build_matrix, hnd, hr, List.foldlM_cons,
    List.foldlM_nil, hargs, hres, bind, Except.bind, pure, Except.pure, Except.map,
    List.nil_append]

/-- C11 at a failing input: for a sampled AngularBonded interaction with four histogram
entries, `read_interaction_file_and_build_matrix` calls the non-pair reader, which hands
four regression rows to the accumulator and writes no row to the `.rdf` file. -/
theorem angular_distribution_rows_missing :
    angular_computer.ispec.class_type = kAngularBonded ∧
    angular_computer.ispec.upper_cutoffs 0 ≠ -1 ∧
    ∃ mat, read_interaction_file_and_build_matrix (fun x => x) 1000 example_matrix
        angular_computer 27 1 [1, 1, 1] (fun _ => (1, 1)) (fun _ => example_hist) 0 0
      = Except.ok (mat, [[]]) ∧ mat.accumulated.length = 4 := by
  obtain ⟨hs, hn⟩ := angular_entries
  have h1 : 1 ≤ other_num_entries angular_computer.ispec 0 := by rw [hn]; norm_num
  obtain ⟨res, hres, hlen, hrdf⟩ :=
    (distribution_rows_per_reader (fun x => x) 1000 angular_computer example_hist
      example_matrix 0 0 1 1 0 0 hs).2 h1
  refine ⟨rfl, hs, res.mat, ?_, ?_⟩
  · rw [← hrdf]
    exact build_matrix_single_other (fun x => x) 1000 example_matrix angular_computer 27 1
      [1, 1, 1] (fun _ => (1, 1)) (fun _ => example_hist) 0 0 1 res rfl
      (by simp [reader_arguments, angular_computer]) hres
  · rw [hlen, hn]
    rfl

/-! ### Histogram population -/

theorem double_to_int_intCast (n : Int) : double_to_int (n : ℚ) = n := by
  unfold double_to_int
  split_ifs
  · exact Int.floor_intCast n
  · exact Int.ceil_intCast n

theorem curr_bin_eq_spec (VERYSMALL_F lower binwidth value : ℚ) :
    curr_bin VERYSMALL_F lower binwidth value
      = spec_bin_index VERYSMALL_F lower binwidth value := by
  unfold curr_bin spec_bin_index
  exact double_to_int_intCast _

theorem sum_set_succ (l : List Nat) (k : Nat) (hk : k < l.length) :
    (l.set k (l.getD k 0 + 1)).sum = l.sum + 1 := by
  induction l generalizing k with
  | nil => simp at hk
  | cons a rest ih =>
    cases k with
    | zero => simp [List.sum_cons]; omega
    | succ k =>
      have hk2 : k < rest.length := by simpa using hk
      have := ih k hk2
      simp only [List.set_cons_succ, List.sum_cons, List.getD_cons_succ, this]
      omega

theorem getD_set_succ (l : List Nat) (k j : Nat) (hk : k < l.length) :
    (l.set k (l.getD k 0 + 1)).getD j 0
      = if j = k then l.getD j 0 + 1 else l.getD j 0 := by
  rw [List.getD_eq_getElem?_getD, List.getElem?_set]
  by_cases h : k = j
  · subst h
    simp [hk]
  · have h2 : ¬ j = k := fun e => h e.symm
    simp only [if_neg h, if_neg h2, List.getD_eq_getElem?_getD]

theorem populate_step_spec (VERYSMALL_F lower binwidth : ℚ) (num_bins : Int)
    (bin_counts : List Nat) (value : ℚ) (hlen : bin_counts.length = num_bins.toNat) :
    (populate_step VERYSMALL_F lower binwidth num_bins bin_counts value).length
      = bin_counts.length ∧
    (index_in_range VERYSMALL_F lower binwidth num_bins value = true →
      (∀ j, (populate_step VERYSMALL_F lower binwidth num_bins bin_counts value).getD j 0
        = if j = (spec_bin_index VERYSMALL_F lower binwidth value).toNat then
            bin_counts.getD j 0 + 1
          else bin_counts.getD j 0) ∧
      (populate_step VERYSMALL_F lower binwidth num_bins bin_counts value).sum
        = bin_counts.sum + 1) ∧
    (index_in_range VERYSMALL_F lower binwidth num_bins value = false →
      populate_step VERYSMALL_F lower binwidth num_bins bin_counts value = bin_counts) := by
  unfold populate_step index_in_range
  rw [curr_bin_eq_spec]
  by_cases h : spec_bin_index VERYSMALL_F lower binwidth value < num_bins
      ∧ spec_bin_index VERYSMALL_F lower binwidth value ≥ 0
  · have hk : (spec_bin_index VERYSMALL_F lower binwidth value).toNat < bin_counts.length := by
      rw [hlen]; omega
    rw [if_pos h]
    refine ⟨by simp, ?_, ?_⟩
    · intro _
      exact ⟨fun j => getD_set_succ bin_counts _ j hk, sum_set_succ bin_counts _ hk⟩
    · intro hf
      have : ¬ (0 ≤ spec_bin_index VERYSMALL_F lower binwidth value
          ∧ spec_bin_index VERYSMALL_F lower binwidth value < num_bins) := by
        simpa using hf
      exact absurd ⟨h.2, h.1⟩ this
  · rw [if_neg h]
    refine ⟨rfl, ?_, fun _ => rfl⟩
    intro ht
    have : 0 ≤ spec_bin_index VERYSMALL_F lower binwidth value
        ∧ spec_bin_index VERYSMALL_F lower binwidth value < num_bins := by
      simpa using ht
    exact absurd ⟨this.2, this.1⟩ h

theorem populate_fold (VERYSMALL_F lower binwidth : ℚ) (num_bins : Int)
    (dist_file : List ℚ) (bin_counts : List Nat) (hlen : bin_counts.length = num_bins.toNat) :
    (dist_file.foldl (populate_step VERYSMALL_F lower binwidth num_bins) bin_counts).length
      = num_bins.toNat ∧
    (dist_file.foldl (populate_step VERYSMALL_F lower binwidth num_bins) bin_counts).sum
      = bin_counts.sum
        + dist_file.countP (index_in_range VERYSMALL_F lower binwidth num_bins) := by
  induction dist_file generalizing bin_counts with
  | nil => simp [hlen]
  | cons v rest ih =>
    obtain ⟨s1, s2, s3⟩ :=
      populate_step_spec VERYSMALL_F lower binwidth num_bins bin_counts v hlen
    obtain ⟨i1, i2⟩ := ih (populate_step VERYSMALL_F lower binwidth num_bins bin_counts v)
      (by rw [s1, hlen])
    simp only [List.foldl_cons, List.countP_cons]
    refine ⟨i1, ?_⟩
    rw [i2]
    by_cases h : index_in_range VERYSMALL_F lower binwidth num_bins v = true
    · rw [(s2 h).2, if_pos h]
      omega
    · have hf : index_in_range VERYSMALL_F lower binwidth num_bins v = false := by
        simpa using h
      rw [s3 hf, if_neg h]
      omega

theorem generate_at_ok (VERYSMALL_F : ℚ)
    (adjust_cutoffs_for_basis : InteractionClassSpec → Nat → InteractionClassSpec)
    (ispec : InteractionClassSpec) (i : Nat) (dist_file : List ℚ)
    (hbins : 1 ≤ (generate_parameter_distribution_histogram_num_bins adjust_cutoffs_for_basis
      ispec i).2) :
    generate_parameter_distribution_histogram_at VERYSMALL_F adjust_cutoffs_for_basis ispec i
        dist_file
      = Except.ok
          ((generate_parameter_distribution_histogram_num_bins adjust_cutoffs_for_basis ispec
              i).1,
           { header := "#center\tcounts\n"
             rows := List.zip
               (bin_centers
                 ((generate_parameter_distribution_histogram_num_bins adjust_cutoffs_for_basis
                   ispec i).1.lower_cutoffs i)
                 (generate_parameter_distribution_histogram_num_bins adjust_cutoffs_for_basis
                   ispec i).1.fm_binwidth
                 (generate_parameter_distribution_histogram_num_bins adjust_cutoffs_for_basis
                   ispec i).2.toNat)
               (populate_histogram VERYSMALL_F
                 ((generate_parameter_distribution_histogram_num_bins adjust_cutoffs_for_basis
                   ispec i).1.lower_cutoffs i)
                 (generate_parameter_distribution_histogram_num_bins adjust_cutoffs_for_basis
                   ispec i).1.fm_binwidth
                 (generate_parameter_distribution_histogram_num_bins adjust_cutoffs_for_basis
                   ispec i).2 dist_file) }) := by
  have h1 : ¬ (generate_parameter_distribution_histogram_num_bins adjust_cutoffs_for_basis
      ispec i).2 < 0 := by omega
  have h2 : ¬ (generate_parameter_distribution_histogram_num_bins adjust_cutoffs_for_basis
      ispec i).2 = 0 := by omega
  simp only [generate_parameter_distribution_histogram_at, if_neg h1, if_neg h2]

theorem tenth_bin_range :
    range_over_binwidth tenth_bin_class 0 = 6755399441055743 / 2251799813685248 ∧
    to_double (6755399441055743 / 2251799813685248 + 1 / 2)
      = 7881299347898367 / 2251799813685248 := by
  have eu : to_double (3 / 10) = 5404319552844595 / 18014398509481984 := by
    rw [to_double_of_bounds (3 / 10) (-2) 5404319552844595
      (by norm_num [abs_of_pos]) (by norm_num [abs_of_pos]) (by norm_num)
      (by norm_num [abs_lt])]
    norm_num
  have el : to_double 0 = 0 := to_double_zero
  have eb : to_double (1 / 10) = 3602879701896397 / 36028797018963968 := by
    rw [to_double_of_bounds (1 / 10) (-4) 7205759403792794
      (by norm_num [abs_of_pos]) (by norm_num [abs_of_pos]) (by norm_num)
      (by norm_num [abs_lt])]
    norm_num
  have ed : to_double
      (5404319552844595 / 18014398509481984
        - 0)
      = 5404319552844595 / 18014398509481984 := by
    rw [show (5404319552844595 / 18014398509481984
          - 0 : ℚ)
        = 5404319552844595 / 18014398509481984 by norm_num,
      to_double_of_bounds (5404319552844595 / 18014398509481984) (-2) 5404319552844595
        (by norm_num [abs_of_pos]) (by norm_num [abs_of_pos]) (by norm_num)
        (by norm_num [abs_lt])]
    norm_num
  have eq : to_double
      (5404319552844595 / 18014398509481984
        / (3602879701896397 / 36028797018963968))
      = 6755399441055743 / 2251799813685248 := by
    rw [show (5404319552844595 / 18014398509481984
          / (3602879701896397 / 36028797018963968) : ℚ)
        = 10808639105689190 / 3602879701896397 by norm_num,
      to_double_of_bounds (10808639105689190 / 3602879701896397) (1) 6755399441055743
        (by norm_num [abs_of_pos]) (by norm_num [abs_of_pos]) (by norm_num)
        (by norm_num [abs_lt])]
    norm_num
  have eh : to_double
      (6755399441055743 / 2251799813685248
        + 1 / 2)
      = 7881299347898367 / 2251799813685248 := by
    rw [show (6755399441055743 / 2251799813685248
          + 1 / 2 : ℚ)
        = 7881299347898367 / 2251799813685248 by norm_num,
      to_double_of_bounds (7881299347898367 / 2251799813685248) (1) 7881299347898367
        (by norm_num [abs_of_pos]) (by norm_num [abs_of_pos]) (by norm_num)
        (by norm_num [abs_lt])]
    norm_num
  exact ⟨range_over_binwidth_eval _ 0 _ _ _ _ _ eu el eb ed eq, eh⟩

theorem tenth_bin_counts :
    tenth_bin_class.upper_cutoffs 0 ≠ -1 ∧
    (generate_parameter_distribution_histogram_num_bins (fun s _ => s) tenth_bin_class 0).2
      = 6 ∧
    other_num_entries tenth_bin_class 0 = 4 := by
  obtain ⟨hr, hh⟩ := tenth_bin_range
  have hs : tenth_bin_class.upper_cutoffs 0 ≠ -1 := by norm_num [tenth_bin_class]
  refine ⟨hs, ?_, ?_⟩
  · rw [num_bins_of_range (fun s _ => s) tenth_bin_class 0 _ _ 3 hs hr hh
      (double_to_int_of_bounds _ _ (by norm_num) (by norm_num) (by norm_num))]
    norm_num [int_wrap]
  · simp only [other_num_entries]
    rw [hr, double_to_int_of_bounds _ 2 (by norm_num) (by norm_num) (by norm_num)]
    norm_num [int_wrap]

/-- C14 at a failing input: an AngularBonded interaction with `lower = 0`, `upper = 0.3`
and bin width `0.1` (the doubles nearest to these, bounds on the grid of the bin width and
left alone by the basis adjustment).  The quotient of the doubles is `2.9999999999999996`;
the Histogram Builder adds `0.5` before it truncates and writes `2 * 3 = 6` bins, the
non-pair reader truncates the quotient as it is and takes `2 * 2 = 4` entries: it hands four
regression rows to the accumulator and leaves the last two bins of the histogram unread. -/
theorem other_reader_two_entries_short (log : ℚ → ℚ) (VERYLARGE VERYSMALL_F : ℚ)
    (dist_file : List ℚ) (hist_file : List (ℚ × Int)) :
    tenth_bin_class.upper_cutoffs 0 ≠ -1 ∧
    tenth_bin_class.lower_cutoffs 0 ≤ tenth_bin_class.upper_cutoffs 0 ∧
    0 < tenth_bin_class.fm_binwidth ∧
    range_over_binwidth tenth_bin_class 0 = 6755399441055743 / 2251799813685248 ∧
    (∃ res, generate_parameter_distribution_histogram_at VERYSMALL_F (fun s _ => s)
        tenth_bin_class 0 dist_file = Except.ok res ∧ res.1 = tenth_bin_class ∧
      res.2.rows.length = 6) ∧
    other_num_entries tenth_bin_class 0 = 4 ∧
    (∃ res, read_one_param_dist_file_other log VERYLARGE tenth_bin_computer hist_file
        example_matrix 0 0 1 0 0 = Except.ok res ∧ res.mat.accumulated.length = 4) := by
  obtain ⟨hs, hb, ho⟩ := tenth_bin_counts
  refine ⟨hs, by norm_num [tenth_bin_class], by norm_num [tenth_bin_class],
    tenth_bin_range.1, ?_, ho, ?_⟩
  · refine ⟨_, generate_at_ok VERYSMALL_F (fun s _ => s) tenth_bin_class 0 dist_file
      (by rw [hb]; norm_num), ?_, ?_⟩
    · have hs2 : tenth_bin_class.upper_cutoffs 0 ≠ -1 := hs
      simp only [generate_parameter_distribution_histogram_num_bins, if_neg hs2]
    · simp only [hb, List.length_zip, bin_centers, List.length_iterate, populate_histogram]
      rw [(populate_fold VERYSMALL_F _ _ 6 dist_file (List.replicate (6 : Int).toNat 0)
        (by simp)).1]
      simp
  · have ho2 : other_num_entries tenth_bin_computer.ispec 0 = 4 := ho
    refine ⟨_, read_other_ok log VERYLARGE tenth_bin_computer hist_file example_matrix 0 0 1
      0 0 hs (by rw [ho2]; norm_num), ?_⟩
    rw [(other_loop_rows log VERYLARGE 1 _ _).1, ho2]
    rfl

end RangeFinding
